import Mathlib

/-!
# SnowOps analytics service — verification of the aggregation/scoping core

A shallow embedding, in Lean 4, of the row-level-scoped analytics
aggregation engine of the `snowops-analytics-service` Go repository.

Modelling conventions:
* `time.Time` is modelled as `Int` (seconds); the Go zero time is the
  sentinel `0`, so `t.IsZero()` becomes `t = 0`.  `time.Duration`
  arithmetic becomes `Int` arithmetic with `day = 86400` seconds.
* `float64` is modelled as `ℚ` (`Rat`).  The Go helper `clamp` maps
  NaN/±Inf to `0`; in `ℚ` those values do not exist and every division
  the source performs is explicitly guarded (or `x / 0 = 0` in `ℚ`,
  which is exactly the value `clamp` would produce), so `clamp` is the
  identity here.
* `uuid.UUID` is modelled as `Nat` (the zero UUID is `0`).
* SQL relations live in a `DB` record; a relation that does not
  currently exist is `none`, so `relationExists` is `Option.isSome` and
  reading an absent relation is a query error, as in PostgreSQL.
* Every repository aggregator is a function into `Except RepoError _`:
  query results are computed from the `DB` lists with the same joins,
  filters, grouping and arithmetic as the SQL text.
-/

namespace SnowOps

/-- One day in model seconds (`24 * time.Hour`). -/
def day : Int := 86400

/-- `model.DateRange` — `From`/`To` timestamps; `0` is Go's zero time. -/
structure DateRange where
  From : Int := 0
  To : Int := 0
  deriving Repr, DecidableEq

/-- `model.GroupBy` — grouping granularity (the HTTP layer maps any
unrecognised string to `day`). -/
inductive GroupBy where
  | day
  | week
  | month
  deriving Repr, DecidableEq

/-- `model.AnalyticsFilter` — date range plus optional entity filters. -/
structure AnalyticsFilter where
  Range : DateRange := {}
  ContractorID : Option Nat := none
  DriverID : Option Nat := none
  PolygonID : Option Nat := none
  CameraID : Option Nat := none
  groupBy : GroupBy := .day
  deriving Repr, DecidableEq

/-- `AnalyticsFilter.Bucket` — normalises the grouping granularity. -/
def AnalyticsFilter.Bucket (f : AnalyticsFilter) : GroupBy :=
  match f.groupBy with
  | .week => .week
  | .month => .month
  | .day => .day

/-- `AnalyticsFilter.ClampRange` (an unused alternative normaliser that
lives on the model type; embedded because it is part of the sources). -/
def AnalyticsFilter.ClampRange (f : AnalyticsFilter) (defaultRange maxRange : Int)
    (now : Int) : AnalyticsFilter :=
  let f := if f.Range.From = 0 ∨ f.Range.To = 0 then
      { f with Range := { From := now - defaultRange * day, To := now } }
    else f
  let f := if f.Range.To < f.Range.From then
      { f with Range := { f.Range with To := f.Range.From + day } }
    else f
  if f.Range.To - f.Range.From > maxRange * day then
    { f with Range := { f.Range with From := f.Range.To - maxRange * day } }
  else f

/-- `model.ScopeType`. -/
inductive ScopeType where
  | city
  | kgu
  | contractor
  | technical
  deriving Repr, DecidableEq

/-- `model.Scope` — the data-visibility decision derived from a principal. -/
structure Scope where
  type : ScopeType
  OrgID : Option Nat := none
  OrganizationIDs : List Nat := []
  ContractorIDs : List Nat := []
  IncludeContractors : Bool := false
  TechnicalOnly : Bool := false
  deriving Repr, DecidableEq

/-- Modelled from the spec: the principal's role.  The Go `Principal.Role`
is a string copied from the verified token; the five documented roles are
City-Authority (akimat), Regional-Authority (kgu), Contractor,
Technical-Operator (too) and Driver, and `unknown` stands for any other
string the token could carry.  The role-predicate methods (`IsDriver`,
`IsToo`, `IsAkimat`, `IsKgu`) and the role constants live in source files
that are not part of the provided sources. -/
inductive Role where
  | akimat
  | kgu
  | contractor
  | too
  | driver
  | unknown
  deriving Repr, DecidableEq

/-- `model.Principal` — identity asserted by the external token verifier. -/
structure Principal where
  UserID : Nat := 0
  OrgID : Option Nat := none
  Role : Role
  DriverID : Option Nat := none
  deriving Repr, DecidableEq

/-- Modelled from the spec: `Principal.IsDriver` (role predicate defined in
a source file that is not provided). -/
def Principal.IsDriver (p : Principal) : Bool := p.Role = .driver

/-- Modelled from the spec: `Principal.IsToo`. -/
def Principal.IsToo (p : Principal) : Bool := p.Role = .too

/-- Modelled from the spec: `Principal.IsAkimat`. -/
def Principal.IsAkimat (p : Principal) : Bool := p.Role = .akimat

/-- Modelled from the spec: `Principal.IsKgu`. -/
def Principal.IsKgu (p : Principal) : Bool := p.Role = .kgu

/-- Scope-resolution failure classification. -/
inductive ScopeError where
  | scopeUnsupported
  deriving Repr, DecidableEq

/-- Modelled from the spec: `ScopeRepository.ResolveScope` (the scope
resolver is in a source file that is not provided).  Per the spec it is a
deterministic mapping from the principal's role to a scope: City-Authority
resolves to City scope, Regional-Authority to Regional (kgu) scope with
its own organization id and its child-contractor ids (supplied here as the
`children` argument, the result of the external `OrgDirectory` lookup),
Contractor to Contractor scope with its own organization id,
Technical-Operator always to Technical scope, and any role with no
defined scope mapping fails with `ScopeUnsupported`. -/
def ResolveScope (p : Principal) (children : List Nat) :
    Except ScopeError Scope :=
  match p.Role with
  | .akimat => .ok { type := .city }
  | .kgu => .ok { type := .kgu, OrgID := p.OrgID, ContractorIDs := children }
  | .contractor => .ok { type := .contractor, OrgID := p.OrgID }
  | .too => .ok { type := .technical, TechnicalOnly := true }
  | .driver => .error .scopeUnsupported
  | .unknown => .error .scopeUnsupported

/-- A row of `tickets`. -/
structure Ticket where
  id : Nat
  name : String := ""
  contractorId : Option Nat := none
  createdByOrgId : Nat
  cleaningAreaId : Nat := 0
  contractId : Option Nat := none
  status : String := ""
  deriving Repr, DecidableEq

/-- A row of `trips`. -/
structure Trip where
  id : Nat
  ticketId : Option Nat := none
  driverId : Option Nat := none
  vehicleId : Option Nat := none
  cameraId : Option Nat := none
  polygonId : Option Nat := none
  status : String := "OK"
  entryAt : Int
  exitAt : Option Int := none
  detectedVolumeEntry : Option ℚ := none
  detectedVolumeExit : Option ℚ := none
  entryLprEventId : Option Nat := none
  exitLprEventId : Option Nat := none
  entryVolumeEventId : Option Nat := none
  exitVolumeEventId : Option Nat := none
  deriving Repr, DecidableEq

/-- A row of `organizations`. -/
structure Organization where
  id : Nat
  name : Option String := none
  orgType : String := ""
  isActive : Bool := true
  parentOrgId : Option Nat := none
  deriving Repr, DecidableEq

/-- A row of `drivers`. -/
structure DriverRow where
  id : Nat
  fullName : Option String := none
  deriving Repr, DecidableEq

/-- A row of `vehicles`. -/
structure Vehicle where
  id : Nat
  plateNumber : Option String := none
  bodyVolumeM3 : Option ℚ := none
  deriving Repr, DecidableEq

/-- A row of `cameras`. -/
structure Camera where
  id : Nat
  name : Option String := none
  polygonId : Option Nat := none
  deriving Repr, DecidableEq

/-- A row of `polygons`. -/
structure Polygon where
  id : Nat
  name : String := ""
  deriving Repr, DecidableEq

/-- A row of `cleaning_areas`. -/
structure CleaningArea where
  id : Nat
  name : Option String := none
  description : Option String := none
  geometryGeoJSON : Option String := none
  deriving Repr, DecidableEq

/-- A row of `lpr_events` or `volume_events` (the queried columns
coincide). -/
structure SensorEvent where
  id : Nat
  cameraId : Nat
  photoUrl : Option String := none
  detectedAt : Int
  deriving Repr, DecidableEq

/-- A row of `contracts`. -/
structure Contract where
  id : Nat
  name : String := ""
  contractorId : Nat
  budgetTotal : ℚ := 0
  minimalVolumeM3 : ℚ := 0
  startAt : Int := 0
  endAt : Int := 0
  isActive : Bool := true
  createdByOrg : Nat := 0
  deriving Repr, DecidableEq

/-- A row of `contract_usage`. -/
structure ContractUsage where
  contractId : Nat
  totalCost : ℚ := 0
  totalVolumeM3 : ℚ := 0
  deriving Repr, DecidableEq

/-- A row of the `mv_trip_daily` materialized view (daily rollup of
trips, per the migration that defines it). -/
structure MvTripDaily where
  bucket : Int
  contractorId : Option Nat := none
  createdByOrgId : Option Nat := none
  cleaningAreaId : Option Nat := none
  driverId : Option Nat := none
  vehicleId : Option Nat := none
  polygonId : Option Nat := none
  totalTrips : Int := 0
  totalVolumeM3 : ℚ := 0
  violationCount : Int := 0
  deriving Repr, DecidableEq

/-- A row of the `mv_violation_daily` materialized view. -/
structure MvViolationDaily where
  bucket : Int
  contractorId : Option Nat := none
  createdByOrgId : Option Nat := none
  cleaningAreaId : Option Nat := none
  driverId : Option Nat := none
  violationType : String := ""
  violationCount : Int := 0
  deriving Repr, DecidableEq

/-- A row of the `mv_cleaning_area_daily` materialized view. -/
structure MvCleaningAreaDaily where
  bucket : Int
  cleaningAreaId : Nat := 0
  contractorId : Option Nat := none
  createdByOrgId : Option Nat := none
  totalTrips : Int := 0
  totalVolumeM3 : ℚ := 0
  violationCount : Int := 0
  activeDrivers : Int := 0
  activeVehicles : Int := 0
  firstEntryAt : Option Int := none
  lastExitAt : Option Int := none
  deriving Repr, DecidableEq

/-- The read-only data store.  Each logical relation is `none` when it
does not currently exist (raw table not yet provisioned, or a rollup
materialized view not yet created) and `some rows` otherwise. -/
structure DB where
  trips : Option (List Trip) := none
  tickets : Option (List Ticket) := none
  organizations : Option (List Organization) := none
  drivers : Option (List DriverRow) := none
  vehicles : Option (List Vehicle) := none
  cameras : Option (List Camera) := none
  polygons : Option (List Polygon) := none
  cleaningAreas : Option (List CleaningArea) := none
  lprEvents : Option (List SensorEvent) := none
  volumeEvents : Option (List SensorEvent) := none
  contracts : Option (List Contract) := none
  contractUsage : Option (List ContractUsage) := none
  mvTripDaily : Option (List MvTripDaily) := none
  mvViolationDaily : Option (List MvViolationDaily) := none
  mvCleaningAreaDaily : Option (List MvCleaningAreaDaily) := none
  deriving Repr, DecidableEq

/-! ## Response DTOs (`internal/model/analytics.go`)

Field defaults are the Go zero values, so `{}` is the zero struct. -/

/-- `model.DashboardStats`. -/
structure DashboardStats where
  ActiveTrips : Int := 0
  CompletedTrips : Int := 0
  TicketsInProgress : Int := 0
  Violations : Int := 0
  deriving Repr, DecidableEq

/-- `model.CleaningAreaActivity`. -/
structure CleaningAreaActivity where
  CleaningAreaID : Nat := 0
  Trips : Int := 0
  ActiveTrips : Int := 0
  HasViolations : Bool := false
  TripHeat : ℚ := 0
  deriving Repr, DecidableEq

/-- `model.EntityMetric`. -/
structure EntityMetric where
  ID : Nat := 0
  Name : String := ""
  Count : Int := 0
  Volume : ℚ := 0
  Share : ℚ := 0
  deriving Repr, DecidableEq

/-- `model.DashboardContractors`. -/
structure DashboardContractors where
  Active : List EntityMetric := []
  Idle : List EntityMetric := []
  deriving Repr, DecidableEq

/-- `model.CameraLoadMetric`. -/
structure CameraLoadMetric where
  CameraID : Nat := 0
  CameraName : String := ""
  PolygonID : Option Nat := none
  PolygonName : Option String := none
  LprEvents : Int := 0
  VolumeEvents : Int := 0
  ErrorEvents : Int := 0
  ErrorRate : ℚ := 0
  deriving Repr, DecidableEq

/-- `model.ContractProgress`. -/
structure ContractProgress where
  ContractID : Nat := 0
  Name : String := ""
  ContractorID : Nat := 0
  ContractorName : String := ""
  BudgetTotal : ℚ := 0
  TotalCost : ℚ := 0
  BudgetProgress : ℚ := 0
  MinimalVolume : ℚ := 0
  TotalVolume : ℚ := 0
  VolumeProgress : ℚ := 0
  UIStatus : String := ""
  Result : String := ""
  StartAt : Int := 0
  EndAt : Int := 0
  deriving Repr, DecidableEq

/-- `model.MapAreaState`. -/
structure MapAreaState where
  ID : Nat := 0
  HasTrips : Bool := false
  HasActiveTrips : Bool := false
  HasViolations : Bool := false
  Intensity : ℚ := 0
  deriving Repr, DecidableEq

/-- `model.MapPolygonState`. -/
structure MapPolygonState where
  ID : Nat := 0
  Name : String := ""
  TripCount : Int := 0
  VolumeM3 : ℚ := 0
  deriving Repr, DecidableEq

/-- `model.MapCameraState`. -/
structure MapCameraState where
  ID : Nat := 0
  Name : String := ""
  Events : Int := 0
  ErrorEvents : Int := 0
  deriving Repr, DecidableEq

/-- `model.MapSummary`. -/
structure MapSummary where
  Areas : List MapAreaState := []
  Polygons : List MapPolygonState := []
  Cameras : List MapCameraState := []
  deriving Repr, DecidableEq

/-- `model.DashboardMetrics`. -/
structure DashboardMetrics where
  Stats : DashboardStats := {}
  Areas : List CleaningAreaActivity := []
  Contractors : DashboardContractors := {}
  Cameras : List CameraLoadMetric := []
  Contracts : List ContractProgress := []
  Map : MapSummary := {}
  GeneratedFor : DateRange := {}
  deriving Repr, DecidableEq

/-- `model.SeriesPoint`. -/
structure SeriesPoint where
  Bucket : Int := 0
  Count : Int := 0
  Value : ℚ := 0
  deriving Repr, DecidableEq

/-- `model.TripDurationStats`. -/
structure TripDurationStats where
  AvgMinutes : ℚ := 0
  P95Minutes : ℚ := 0
  deriving Repr, DecidableEq

/-- `model.TripVolumeStats`. -/
structure TripVolumeStats where
  AvgVolume : ℚ := 0
  MaxVolume : ℚ := 0
  MinVolume : ℚ := 0
  deriving Repr, DecidableEq

/-- `model.TripAnalytics`. -/
structure TripAnalytics where
  Series : List SeriesPoint := []
  VolumeSeries : List SeriesPoint := []
  TopDrivers : List EntityMetric := []
  TopContractors : List EntityMetric := []
  DurationStats : TripDurationStats := {}
  VolumeStats : TripVolumeStats := {}
  deriving Repr, DecidableEq

/-- `model.TripEvent`. -/
structure TripEvent where
  EventID : Nat := 0
  CameraID : Nat := 0
  PhotoURL : Option String := none
  Captured : Int := 0
  deriving Repr, DecidableEq

/-- `model.TripEventDetails`. -/
structure TripEventDetails where
  EntryLPR : Option TripEvent := none
  ExitLPR : Option TripEvent := none
  EntryVolume : Option TripEvent := none
  ExitVolume : Option TripEvent := none
  deriving Repr, DecidableEq

/-- `model.ViolationRecord`. -/
structure ViolationRecord where
  type : String := ""
  Source : String := ""
  At : Int := 0
  Note : Option String := none
  deriving Repr, DecidableEq

/-- `model.TripDetails`. -/
structure TripDetails where
  TripID : Nat := 0
  TicketID : Option Nat := none
  TicketName : Option String := none
  DriverID : Option Nat := none
  DriverName : Option String := none
  VehicleID : Option Nat := none
  VehiclePlate : Option String := none
  ContractorID : Option Nat := none
  ContractorName : Option String := none
  CleaningAreaID : Option Nat := none
  PolygonID : Option Nat := none
  Status : String := ""
  EntryAt : Int := 0
  ExitAt : Option Int := none
  DetectedVolumeEntry : Option ℚ := none
  DetectedVolumeExit : Option ℚ := none
  Violations : List ViolationRecord := []
  Events : TripEventDetails := {}
  deriving Repr, DecidableEq

/-- `model.ViolationBreakdown`. -/
structure ViolationBreakdown where
  type : String := ""
  Count : Int := 0
  Share : ℚ := 0
  deriving Repr, DecidableEq

/-- `model.ViolationAnalytics`. -/
structure ViolationAnalytics where
  Series : List SeriesPoint := []
  Breakdown : List ViolationBreakdown := []
  TopContractors : List EntityMetric := []
  TopDrivers : List EntityMetric := []
  TopCameras : List CameraLoadMetric := []
  deriving Repr, DecidableEq

/-- `model.ContractorPerformance`. -/
structure ContractorPerformance where
  ContractorID : Nat := 0
  ContractorName : String := ""
  TripCount : Int := 0
  AvgVolume : ℚ := 0
  ViolationRate : ℚ := 0
  ActiveDrivers : Int := 0
  Utilization : ℚ := 0
  deriving Repr, DecidableEq

/-- `model.DriverPerformance`. -/
structure DriverPerformance where
  DriverID : Nat := 0
  DriverName : String := ""
  TripCount : Int := 0
  AvgVolume : ℚ := 0
  ViolationRate : ℚ := 0
  AvgDuration : ℚ := 0
  deriving Repr, DecidableEq

/-- `model.VehiclePerformance`. -/
structure VehiclePerformance where
  VehicleID : Nat := 0
  PlateNumber : String := ""
  TripCount : Int := 0
  AvgFillRate : ℚ := 0
  ViolationRate : ℚ := 0
  IdleHours : ℚ := 0
  deriving Repr, DecidableEq

/-- `model.PerformanceAnalytics`. -/
structure PerformanceAnalytics where
  Contractors : List ContractorPerformance := []
  Drivers : List DriverPerformance := []
  Vehicles : List VehiclePerformance := []
  deriving Repr, DecidableEq

/-- `model.ContractAnalytics`. -/
structure ContractAnalytics where
  Summary : List ContractProgress := []
  TopBudget : List ContractProgress := []
  AtRisk : List ContractProgress := []
  BudgetIssues : List ContractProgress := []
  deriving Repr, DecidableEq

/-- `model.CleaningAreaAnalytics`. -/
structure CleaningAreaAnalyticsRow where
  CleaningAreaID : Nat := 0
  Name : String := ""
  Description : Option String := none
  TripCount : Int := 0
  VolumeM3 : ℚ := 0
  ViolationCount : Int := 0
  ActiveDrivers : Int := 0
  ActiveVehicles : Int := 0
  AvgIntervalHours : ℚ := 0
  IdleHours : ℚ := 0
  LastTripAt : Option Int := none
  GeometryGeoJSON : Option String := none
  deriving Repr, DecidableEq

/-- `model.DriverKPI`. -/
structure DriverKPI where
  DriverID : Nat := 0
  DriverName : String := ""
  ContractorID : Option Nat := none
  ContractorName : Option String := none
  TripCount : Int := 0
  AvgVolume : ℚ := 0
  ViolationRate : ℚ := 0
  AvgDuration : ℚ := 0
  LastTripAt : Option Int := none
  deriving Repr, DecidableEq

/-- `model.VehicleKPI`. -/
structure VehicleKPI where
  VehicleID : Nat := 0
  PlateNumber : String := ""
  ContractorID : Option Nat := none
  ContractorName : Option String := none
  TripCount : Int := 0
  AvgFillRate : ℚ := 0
  ViolationRate : ℚ := 0
  IdleHours : ℚ := 0
  LastTripAt : Option Int := none
  deriving Repr, DecidableEq

/-- `model.PolygonLoadMetric`. -/
structure PolygonLoadMetric where
  PolygonID : Nat := 0
  PolygonName : String := ""
  TripCount : Int := 0
  VolumeM3 : ℚ := 0
  ErrorEvents : Int := 0
  deriving Repr, DecidableEq

/-- `model.TechnicalAnalytics`. -/
structure TechnicalAnalytics where
  Cameras : List CameraLoadMetric := []
  Polygons : List PolygonLoadMetric := []
  ErrorRate : ℚ := 0
  LastEventAt : Option Int := none
  TotalEvents : Int := 0
  EventFrequency : ℚ := 0
  deriving Repr, DecidableEq

/-- Maps the relation name used by the source onto the `DB` field. -/
def DB.relation (db : DB) : String → Option Unit
  | "trips" => db.trips.map fun _ => ()
  | "tickets" => db.tickets.map fun _ => ()
  | "organizations" => db.organizations.map fun _ => ()
  | "drivers" => db.drivers.map fun _ => ()
  | "vehicles" => db.vehicles.map fun _ => ()
  | "cameras" => db.cameras.map fun _ => ()
  | "polygons" => db.polygons.map fun _ => ()
  | "cleaning_areas" => db.cleaningAreas.map fun _ => ()
  | "lpr_events" => db.lprEvents.map fun _ => ()
  | "volume_events" => db.volumeEvents.map fun _ => ()
  | "contracts" => db.contracts.map fun _ => ()
  | "contract_usage" => db.contractUsage.map fun _ => ()
  | "mv_trip_daily" => db.mvTripDaily.map fun _ => ()
  | "mv_violation_daily" => db.mvViolationDaily.map fun _ => ()
  | "mv_cleaning_area_daily" => db.mvCleaningAreaDaily.map fun _ => ()
  | _ => none

namespace Repo

/-- `relationExists` — relation-existence introspection (`pg_class`
lookup); an introspection error also reads as "absent". -/
def relationExists (db : DB) (name : String) : Bool :=
  (db.relation name).isSome

/-- `tablesAvailable` — all the named relations exist. -/
def tablesAvailable (db : DB) (names : List String) : Bool :=
  names.all (relationExists db)

/-- Query-level failures surfaced by the data store. -/
inductive RepoError where
  | recordNotFound
  | queryFailed
  deriving Repr, DecidableEq

/-- Reading a relation that does not exist is a query error. -/
def readRel (rel : Option (List α)) : Except RepoError (List α) :=
  match rel with
  | some rows => .ok rows
  | none => .error .queryFailed

/-! ## SQL evaluation helpers

List-level counterparts of the SQL constructs the repository queries use:
inclusive `BETWEEN`, `COUNT`/`SUM`/`AVG`/`MIN`/`MAX` aggregates (which
skip SQL `NULL`s, modelled as `Option`), `COUNT(DISTINCT _)`,
`GROUP BY` (first-occurrence key order), `ORDER BY … LIMIT` and
`percentile_disc`, plus `DATE_TRUNC`. -/

/-- `x BETWEEN rng.From AND rng.To` (inclusive on both ends). -/
def between (t : Int) (rng : DateRange) : Bool :=
  decide (rng.From ≤ t ∧ t ≤ rng.To)

/-- `COUNT(*)` over the rows matching `p`. -/
def countWhere (p : α → Bool) (l : List α) : Int :=
  ((l.filter p).length : Int)

/-- Sum of a list of rationals. -/
def ratSum (l : List ℚ) : ℚ := l.foldl (· + ·) 0

/-- `COALESCE(SUM(x), 0)` over a nullable column. -/
def sumOpt (l : List (Option ℚ)) : ℚ := ratSum (l.filterMap id)

/-- `COALESCE(AVG(x), 0)` over a nullable column (`NULL`s are skipped;
the average of no non-`NULL` values is `NULL`, coalesced to `0`). -/
def avgOpt (l : List (Option ℚ)) : ℚ :=
  let v := l.filterMap id
  if v.length = 0 then 0 else ratSum v / (v.length : ℚ)

/-- `COALESCE(MAX(x), 0)` over a nullable column. -/
def maxOpt (l : List (Option ℚ)) : ℚ :=
  match l.filterMap id with
  | [] => 0
  | x :: xs => xs.foldl max x

/-- `COALESCE(MIN(x), 0)` over a nullable column. -/
def minOpt (l : List (Option ℚ)) : ℚ :=
  match l.filterMap id with
  | [] => 0
  | x :: xs => xs.foldl min x

/-- `MAX(t)` over timestamps (`NULL` on an empty set). -/
def maxTime (l : List Int) : Option Int :=
  match l with
  | [] => none
  | x :: xs => some (xs.foldl max x)

/-- `MIN(t)` over timestamps (`NULL` on an empty set). -/
def minTime (l : List Int) : Option Int :=
  match l with
  | [] => none
  | x :: xs => some (xs.foldl min x)

/-- The list of distinct values, keeping first-occurrence order. -/
def distinctList [DecidableEq α] (l : List α) : List α :=
  (l.foldl (fun acc a => if a ∈ acc then acc else a :: acc) []).reverse

/-- `COUNT(DISTINCT x)` over a nullable column (`NULL`s are not counted). -/
def countDistinct (l : List (Option Nat)) : Int :=
  ((distinctList (l.filterMap id)).length : Int)

/-- Insertion of one element into a list sorted by `le`. -/
def insertSorted (le : α → α → Bool) (a : α) : List α → List α
  | [] => [a]
  | b :: bs => if le a b then a :: b :: bs else b :: insertSorted le a bs

/-- `ORDER BY` — a simple insertion sort by the boolean order `le`. -/
def sortBy (le : α → α → Bool) : List α → List α
  | [] => []
  | a :: as => insertSorted le a (sortBy le as)

/-- `percentile_disc(p) WITHIN GROUP (ORDER BY x)` — the first value of
the sorted list whose cumulative fraction reaches `p`; `NULL` (coalesced
to `0`) on an empty set. -/
def percentileDisc (p : ℚ) (l : List ℚ) : ℚ :=
  let sorted := sortBy (fun a b => decide (a ≤ b)) l
  sorted.getD ((p * (l.length : ℚ)).ceil.toNat - 1) 0

/-- `DATE_TRUNC('day', t)` for a UTC timestamp in seconds. -/
def dateTruncDay (t : Int) : Int := t / 86400 * 86400

/-- `DATE_TRUNC('week', t)` — ISO weeks start on Monday; day 4 of the
Unix epoch (1970-01-05) is a Monday. -/
def dateTruncWeek (t : Int) : Int :=
  (t - 4 * 86400) / (7 * 86400) * (7 * 86400) + 4 * 86400

/-- `DATE_TRUNC('month', t)` — first day of the civil (proleptic
Gregorian) month, via the standard days-from-civil era decomposition. -/
def dateTruncMonth (t : Int) : Int :=
  let z := t / 86400
  let z0 := z + 719468
  let era := z0 / 146097
  let doe := z0 - era * 146097
  let yoe := (doe - doe / 1460 + doe / 36524 - doe / 146096) / 365
  let doy := doe - (365 * yoe + yoe / 4 - yoe / 100)
  let mp := (5 * doy + 2) / 153
  let d := doy - (153 * mp + 2) / 5 + 1
  (z - (d - 1)) * 86400

/-- `DATE_TRUNC(unit, t)` for the unit string produced by
`buildDateTrunc` (PostgreSQL would reject any other unit; the source
only ever produces these three). -/
def dateTruncBy (unit : String) (t : Int) : Int :=
  if unit = "week" then dateTruncWeek t
  else if unit = "month" then dateTruncMonth t
  else dateTruncDay t

/-! ## Join helpers -/

/-- `LEFT JOIN tickets t ON t.id = tr.ticket_id` — the matching ticket
row, if any. -/
def findTicket (tickets : List Ticket) (tid : Option Nat) : Option Ticket :=
  tid.bind fun i => tickets.find? fun t => t.id == i

/-- `LEFT JOIN organizations org ON org.id = x`. -/
def findOrg (orgs : List Organization) (oid : Option Nat) :
    Option Organization :=
  oid.bind fun i => orgs.find? fun o => o.id == i

/-- `LEFT JOIN drivers d ON d.id = tr.driver_id`. -/
def findDriver (drivers : List DriverRow) (did : Option Nat) :
    Option DriverRow :=
  did.bind fun i => drivers.find? fun d => d.id == i

/-- `LEFT JOIN vehicles v ON v.id = tr.vehicle_id`. -/
def findVehicle (vehicles : List Vehicle) (vid : Option Nat) :
    Option Vehicle :=
  vid.bind fun i => vehicles.find? fun v => v.id == i

/-- `LEFT JOIN polygons p ON p.id = x`. -/
def findPolygon (polygons : List Polygon) (pid : Option Nat) :
    Option Polygon :=
  pid.bind fun i => polygons.find? fun p => p.id == i

/-- `LEFT JOIN cameras c ON c.id = tr.camera_id`. -/
def findCamera (cameras : List Camera) (cid : Option Nat) : Option Camera :=
  cid.bind fun i => cameras.find? fun c => c.id == i

/-- `t.created_by_org_id` seen through a `LEFT JOIN` (`NULL` when the
trip has no ticket row). -/
def ticketCreatedByOrg (tk : Option Ticket) : Option Nat :=
  tk.map (·.createdByOrgId)

/-- `t.contractor_id` seen through a `LEFT JOIN`. -/
def ticketContractor (tk : Option Ticket) : Option Nat :=
  tk.bind (·.contractorId)

/-- `trips tr JOIN tickets t ON t.id = tr.ticket_id` (inner join). -/
def tripsJoinTickets (trips : List Trip) (tickets : List Ticket) :
    List (Trip × Ticket) :=
  trips.filterMap fun tr => (findTicket tickets tr.ticketId).map fun t => (tr, t)

/-! ## Scope predicates

The `apply*Scope` helpers of the source attach one `WHERE` predicate to
a query; here each is the row-level boolean that predicate evaluates to,
on the (possibly `NULL`) scope columns of the joined row.  SQL
comparisons with `NULL` are false, which `Option` equality mirrors. -/

/-- `applyTripScope` — predicate on `t.created_by_org_id` /
`t.contractor_id` of a trip row joined with its ticket. -/
def applyTripScope (scope : Scope) (createdByOrgId contractorId : Option Nat) :
    Bool :=
  match scope.type with
  | .city => true
  | .kgu =>
    match scope.OrgID with
    | some org =>
      if scope.ContractorIDs.length > 0 then
        createdByOrgId == some org ||
          (match contractorId with
           | some c => scope.ContractorIDs.contains c
           | none => false)
      else createdByOrgId == some org
    | none => true
  | .contractor =>
    match scope.OrgID with
    | some org => contractorId == some org
    | none => true
  | .technical => false

/-- `applyTicketScope` — predicate on a `tickets` row. -/
def applyTicketScope (scope : Scope) (t : Ticket) : Bool :=
  match scope.type with
  | .city => true
  | .kgu =>
    match scope.OrgID with
    | some org => t.createdByOrgId == org
    | none => true
  | .contractor =>
    match scope.OrgID with
    | some org => t.contractorId == some org
    | none => true
  | .technical => false

/-- `applyContractScope` — predicate on a `contracts` row (the `default`
branch of the source's switch, hit by Technical scope, matches no row). -/
def applyContractScope (scope : Scope) (c : Contract) : Bool :=
  match scope.type with
  | .city => true
  | .kgu =>
    match scope.OrgID with
    | some org => c.createdByOrg == org
    | none => true
  | .contractor =>
    match scope.OrgID with
    | some org => c.contractorId == org
    | none => true
  | .technical => false

/-- `applyMVTripScope` — predicate on `mv.created_by_org_id` /
`mv.contractor_id` of a rollup row. -/
def applyMVTripScope (scope : Scope) (createdByOrgId contractorId : Option Nat) :
    Bool :=
  match scope.type with
  | .city => true
  | .kgu =>
    match scope.OrgID with
    | some org =>
      if scope.ContractorIDs.length > 0 then
        createdByOrgId == some org ||
          (match contractorId with
           | some c => scope.ContractorIDs.contains c
           | none => false)
      else createdByOrgId == some org
    | none => true
  | .contractor =>
    match scope.OrgID with
    | some org => contractorId == some org
    | none => true
  | .technical => false

/-- `applyMVCleaningAreaScope` — textually identical predicate shape to
`applyMVTripScope`, kept separate as in the source. -/
def applyMVCleaningAreaScope (scope : Scope)
    (createdByOrgId contractorId : Option Nat) : Bool :=
  match scope.type with
  | .city => true
  | .kgu =>
    match scope.OrgID with
    | some org =>
      if scope.ContractorIDs.length > 0 then
        createdByOrgId == some org ||
          (match contractorId with
           | some c => scope.ContractorIDs.contains c
           | none => false)
      else createdByOrgId == some org
    | none => true
  | .contractor =>
    match scope.OrgID with
    | some org => contractorId == some org
    | none => true
  | .technical => false

/-- The trip rows visible through a scope (a trip query's row set before
its report-specific filters): `trips tr LEFT JOIN tickets t` with the
scope predicate attached.  Every trip-backed aggregator below draws from
this set. -/
def scopedTrips (trips : List Trip) (tickets : List Ticket) (scope : Scope) :
    List Trip :=
  trips.filter fun tr =>
    let tk := findTicket tickets tr.ticketId
    applyTripScope scope (ticketCreatedByOrg tk) (ticketContractor tk)

/-- `clamp` — the numeric guard of the source maps NaN/±Inf to `0`.  In
the `ℚ` model those values do not arise (every SQL/Go division the
source performs is either guarded or is a division by zero, which is
already `0` in `ℚ`), so the guard is the identity. -/
def clamp (value : ℚ) : ℚ := value

/-- `normalizeGroupBy` — SQL unit string for a grouping granularity. -/
def normalizeGroupBy (groupBy : GroupBy) : String :=
  match groupBy with
  | .week => "week"
  | .month => "month"
  | .day => "day"

/-- `buildDateTrunc` — same mapping as `normalizeGroupBy`. -/
def buildDateTrunc (groupBy : GroupBy) : String :=
  match groupBy with
  | .week => "week"
  | .month => "month"
  | .day => "day"

/-- `orgTypeContractor` — the organization-type constant for contractors
(declared next to the scope repository in the sources; the value follows
the spec's organization taxonomy). -/
def orgTypeContractor : String := "CONTRACTOR"

/-- `deriveContractStatus` — compares "now" with the contract window
(`now.Before(start)` is `now < start`, `now.After(end)` is `end < now`). -/
def deriveContractStatus (start «end» now : Int) : String :=
  if now < start then "PLANNED"
  else if «end» < now then "EXPIRED"
  else "ACTIVE"

/-- `deriveContractResult` — derived contract outcome. -/
def deriveContractResult (status : String) (totalVolume minimalVolume : ℚ) :
    String :=
  if status ≠ "EXPIRED" then "NONE"
  else if minimalVolume = 0 then "NONE"
  else if totalVolume ≥ minimalVolume then "SUCCESS"
  else "FAIL"

/-- `ContractUsage` row for a contract (`LEFT JOIN contract_usage u`). -/
def findUsage (usage : List ContractUsage) (cid : Nat) : Option ContractUsage :=
  usage.find? fun u => u.contractId == cid

/-- The `DISTINCT tr.camera_id` subquery: cameras of in-range trips
visible through the scope (`trips JOIN tickets` inner join). -/
def scopedTripCameraIDs (trips : List Trip) (tickets : List Ticket)
    (scope : Scope) (rng : DateRange) : List Nat :=
  distinctList ((tripsJoinTickets trips tickets).filterMap fun x =>
    if x.1.cameraId.isSome && between x.1.entryAt rng &&
        applyTripScope scope (some x.2.createdByOrgId) x.2.contractorId then
      x.1.cameraId
    else none)

/-- `AnalyticsRepository.DashboardStats` — trip/ticket headline counts. -/
def DashboardStats (db : DB) (scope : Scope) (rng : DateRange) :
    Except RepoError SnowOps.DashboardStats := do
  if ¬ tablesAvailable db ["trips", "tickets"] then
    return {}
  let trips ← readRel db.trips
  let tickets ← readRel db.tickets
  let rows := scopedTrips trips tickets scope
  let ticketsInProgress := countWhere
    (fun t => (t.status == "IN_PROGRESS" || t.status == "COMPLETED") &&
      applyTicketScope scope t) tickets
  return {
    ActiveTrips := countWhere (fun tr => tr.exitAt.isNone) rows
    CompletedTrips := countWhere
      (fun tr => tr.exitAt.isSome && between tr.entryAt rng) rows
    Violations := countWhere
      (fun tr => tr.status != "OK" && between tr.entryAt rng) rows
    TicketsInProgress := ticketsInProgress }

/-- `AnalyticsRepository.CleaningAreaActivity` — per-area trip activity
with heat intensity relative to the busiest area of the response. -/
def CleaningAreaActivity (db : DB) (scope : Scope) (rng : DateRange) :
    Except RepoError (List SnowOps.CleaningAreaActivity) := do
  if ¬ tablesAvailable db ["trips", "tickets"] then
    return []
  let trips ← readRel db.trips
  let tickets ← readRel db.tickets
  let joined := (tripsJoinTickets trips tickets).filter fun x =>
    between x.1.entryAt rng &&
      applyTripScope scope (some x.2.createdByOrgId) x.2.contractorId
  let keys := distinctList (joined.map fun x => x.2.cleaningAreaId)
  let tripCounts := keys.map fun k =>
    countWhere (fun x => x.2.cleaningAreaId == k) joined
  let maxTrips := tripCounts.foldl max 0
  return keys.map fun k =>
    let grp := joined.filter fun x => x.2.cleaningAreaId == k
    let tripsN := countWhere (fun _ => true) grp
    { CleaningAreaID := k
      Trips := tripsN
      ActiveTrips := countWhere (fun x => x.1.exitAt.isNone) grp
      HasViolations := grp.any fun x => x.1.status != "OK"
      TripHeat := if maxTrips > 0 then (tripsN : ℚ) / (maxTrips : ℚ) else 0 }

/-- `AnalyticsRepository.CleaningAreaAnalytics` — per-area KPI rows from
the `mv_cleaning_area_daily` rollup joined with `cleaning_areas`. -/
def CleaningAreaAnalytics (db : DB) (scope : Scope)
    (filter : AnalyticsFilter) :
    Except RepoError (List CleaningAreaAnalyticsRow) := do
  if ¬ relationExists db "mv_cleaning_area_daily" then
    return []
  let mv ← readRel db.mvCleaningAreaDaily
  let areas ← readRel db.cleaningAreas
  let rows := mv.filter fun r =>
    between r.bucket filter.Range &&
      applyMVCleaningAreaScope scope r.createdByOrgId r.contractorId
  let keys := distinctList (rows.map (·.cleaningAreaId))
  return keys.map fun k =>
    let grp := rows.filter fun r => r.cleaningAreaId == k
    let ca := areas.find? fun a => a.id == k
    let name :=
      match (ca.bind (·.name)).getD "Cleaning area" with
      | "" => "Cleaning area"
      | n => n
    let tripCount : Int := (grp.map (·.totalTrips)).foldl (· + ·) 0
    let firstEntry := minTime (grp.filterMap (·.firstEntryAt))
    let lastExit := maxTime (grp.filterMap (·.lastExitAt))
    let avgInterval : ℚ :=
      match firstEntry, lastExit with
      | some fe, some le =>
        if tripCount > 1 then
          let total : ℚ := ((le - fe : Int) : ℚ) / 3600
          if total > 0 then total / (tripCount : ℚ) else 0
        else 0
      | _, _ => 0
    let idle : ℚ :=
      match lastExit with
      | some le =>
        let delta : ℚ := ((filter.Range.To - le : Int) : ℚ) / 3600
        if delta > 0 then delta else 0
      | none => 0
    { CleaningAreaID := k
      Name := name
      Description := ca.bind (·.description)
      TripCount := tripCount
      VolumeM3 := ratSum (grp.map (·.totalVolumeM3))
      ViolationCount := (grp.map (·.violationCount)).foldl (· + ·) 0
      ActiveDrivers := (grp.map (·.activeDrivers)).foldl (· + ·) 0
      ActiveVehicles := (grp.map (·.activeVehicles)).foldl (· + ·) 0
      AvgIntervalHours := clamp avgInterval
      IdleHours := clamp idle
      LastTripAt := lastExit
      GeometryGeoJSON := ca.bind (·.geometryGeoJSON) }

/-- `AnalyticsRepository.ContractorActivitySplit` — contractors active in
the range (with share of total trips) and, for City/Regional scopes, the
registered contractors with no activity. -/
def ContractorActivitySplit (db : DB) (scope : Scope) (rng : DateRange) :
    Except RepoError (List EntityMetric × List EntityMetric) := do
  if ¬ tablesAvailable db ["trips", "tickets", "organizations"] then
    return ([], [])
  let trips ← readRel db.trips
  let tickets ← readRel db.tickets
  let orgs ← readRel db.organizations
  let joined := (tripsJoinTickets trips tickets).filter fun x =>
    between x.1.entryAt rng &&
      applyTripScope scope (some x.2.createdByOrgId) x.2.contractorId
  let keys := distinctList (joined.map fun x => x.2.contractorId)
  let counts := keys.map fun k => countWhere (fun x => x.2.contractorId == k) joined
  let total : ℚ := ratSum (counts.map fun c => (c : ℚ))
  let active : List EntityMetric := keys.map fun k =>
    let grp := joined.filter fun x => x.2.contractorId == k
    let count := countWhere (fun _ => true) grp
    { ID := k.getD 0
      Name := ((findOrg orgs k).bind (·.name)).getD "Unknown"
      Count := count
      Volume := sumOpt (grp.map fun x => x.1.detectedVolumeEntry)
      Share := if total > 0 then (count : ℚ) / total else 0 }
  let idle :=
    if scope.type == .city || scope.type == .kgu then
      let ids := active.map (·.ID)
      let idleOrgs := orgs.filter fun o =>
        o.orgType == orgTypeContractor && o.isActive &&
          (match scope.type == .kgu, scope.OrgID with
           | true, some org => o.parentOrgId == some org
           | _, _ => true) &&
          (if ids.length > 0 then ¬ ids.contains o.id else true)
      idleOrgs.map fun o => ({ ID := o.id, Name := o.name.getD "" } : EntityMetric)
    else []
  return (active, idle)

/-- `AnalyticsRepository.CameraLoad` — per-camera event/error counts;
scope-filtered (to cameras seen by in-scope trips) only for scopes other
than City and Technical. -/
def CameraLoad (db : DB) (scope : Scope) (rng : DateRange) :
    Except RepoError (List CameraLoadMetric) := do
  if ¬ tablesAvailable db
      ["cameras", "polygons", "trips", "lpr_events", "volume_events"] then
    return []
  let cameras ← readRel db.cameras
  let polygons ← readRel db.polygons
  let trips ← readRel db.trips
  let lpr ← readRel db.lprEvents
  let vol ← readRel db.volumeEvents
  let rows ←
    if scope.type != .city && scope.type != .technical then do
      let tickets ← readRel db.tickets
      let camIDs := scopedTripCameraIDs trips tickets scope rng
      pure (cameras.filter fun c => camIDs.contains c.id)
    else pure cameras
  return rows.map fun c =>
    let lprEvents := countWhere
      (fun e => e.cameraId == c.id && between e.detectedAt rng) lpr
    let volumeEvents := countWhere
      (fun e => e.cameraId == c.id && between e.detectedAt rng) vol
    let errorEvents := countWhere
      (fun tr => tr.cameraId == some c.id &&
        ["NO_LPR_EVENT", "NO_VOLUME_EVENT", "CAMERA_ERROR",
          "MISMATCH_PLATE"].contains tr.status &&
        between tr.entryAt rng) trips
    let totalEvents := lprEvents + volumeEvents
    { CameraID := c.id
      CameraName := c.name.getD "Camera"
      PolygonID := c.polygonId
      PolygonName := (findPolygon polygons c.polygonId).map (·.name)
      LprEvents := lprEvents
      VolumeEvents := volumeEvents
      ErrorEvents := errorEvents
      ErrorRate := clamp (if totalEvents > 0 then
        (errorEvents : ℚ) / (totalEvents : ℚ) else 0) }

/-- `AnalyticsRepository.ContractProgress` — per-contract budget/volume
progress with derived status and result ("now" is the wall clock the
source reads inside the method). -/
def ContractProgress (db : DB) (scope : Scope) (now : Int) :
    Except RepoError (List SnowOps.ContractProgress) := do
  if ¬ tablesAvailable db ["contracts", "organizations", "contract_usage"] then
    return []
  let contracts ← readRel db.contracts
  let usage ← readRel db.contractUsage
  let orgs ← readRel db.organizations
  let rows := contracts.filter (applyContractScope scope)
  return rows.map fun c =>
    let u := findUsage usage c.id
    let totalCost := (u.map (·.totalCost)).getD 0
    let totalVolume := (u.map (·.totalVolumeM3)).getD 0
    let status := deriveContractStatus c.startAt c.endAt now
    let result := deriveContractResult status totalVolume c.minimalVolumeM3
    { ContractID := c.id
      Name := c.name
      ContractorID := c.contractorId
      ContractorName := ((findOrg orgs (some c.contractorId)).bind
        (·.name)).getD "Contractor"
      BudgetTotal := c.budgetTotal
      TotalCost := totalCost
      MinimalVolume := c.minimalVolumeM3
      TotalVolume := totalVolume
      BudgetProgress := if c.budgetTotal > (0 : ℚ) then totalCost / c.budgetTotal else 0
      VolumeProgress := if c.minimalVolumeM3 > (0 : ℚ) then
        totalVolume / c.minimalVolumeM3 else 0
      UIStatus := status
      Result := result
      StartAt := c.startAt
      EndAt := c.endAt }

/-- `AnalyticsRepository.MapStates` — map overlays: area states from
`CleaningAreaActivity`, polygon trip loads, and camera event states
(camera list scope-filtered only for non-City/non-Technical scopes). -/
def MapStates (db : DB) (scope : Scope) (rng : DateRange) :
    Except RepoError
      (List MapAreaState × List MapPolygonState × List MapCameraState) := do
  if ¬ tablesAvailable db ["trips", "tickets"] then
    return ([], [], [])
  let areaActivity ← CleaningAreaActivity db scope rng
  let areas : List MapAreaState := areaActivity.map fun a =>
    { ID := a.CleaningAreaID
      HasTrips := decide (a.Trips > (0 : Int))
      HasActiveTrips := decide (a.ActiveTrips > (0 : Int))
      HasViolations := a.HasViolations
      Intensity := a.TripHeat }
  let polygonStates ←
    if tablesAvailable db ["polygons"] then do
      let trips ← readRel db.trips
      let tickets ← readRel db.tickets
      let polys ← readRel db.polygons
      let rows := trips.filter fun tr =>
        tr.polygonId.isSome && between tr.entryAt rng &&
          (let tk := findTicket tickets tr.ticketId
           applyTripScope scope (ticketCreatedByOrg tk) (ticketContractor tk))
      let keys := distinctList (rows.map (·.polygonId))
      let states : List MapPolygonState := keys.map fun k =>
        let grp := rows.filter fun tr => tr.polygonId == k
        { ID := k.getD 0
          Name := ((findPolygon polys k).map (·.name)).getD "Polygon"
          TripCount := countWhere (fun _ => true) grp
          VolumeM3 := sumOpt (grp.map (·.detectedVolumeEntry)) }
      pure states
    else pure []
  let cameraStates ←
    if tablesAvailable db ["cameras", "lpr_events", "trips"] then do
      let cams ← readRel db.cameras
      let lpr ← readRel db.lprEvents
      let trips ← readRel db.trips
      let rows ←
        if scope.type != .city && scope.type != .technical then do
          let tickets ← readRel db.tickets
          let camIDs := scopedTripCameraIDs trips tickets scope rng
          pure (cams.filter fun c => camIDs.contains c.id)
        else pure cams
      let states : List MapCameraState := rows.map fun c =>
        { ID := c.id
          Name := c.name.getD ""
          Events := countWhere
            (fun e => e.cameraId == c.id && between e.detectedAt rng) lpr
          ErrorEvents := countWhere
            (fun tr => tr.cameraId == some c.id && tr.status != "OK" &&
              between tr.entryAt rng) trips }
      pure states
    else pure []
  return (areas, polygonStates, cameraStates)

/-- `strings.Contains`. -/
def strContains (s sub : String) : Bool :=
  (s.splitOn sub).length > 1

/-- The anonymous `{ID, Name-key, Count, Volume}` grouping row the
leader-board queries scan into (before display names are attached). -/
structure MetricRow where
  key : Option Nat := none
  count : Int := 0
  volume : ℚ := 0
  deriving Repr, DecidableEq

/-- `AnalyticsRepository.TripSeries` — time-bucketed trip counts from the
`mv_trip_daily` rollup. -/
def TripSeries (db : DB) (scope : Scope) (filter : AnalyticsFilter) :
    Except RepoError (List SeriesPoint) := do
  if ¬ relationExists db "mv_trip_daily" then
    return []
  let mv ← readRel db.mvTripDaily
  let group := buildDateTrunc filter.groupBy
  let rows := mv.filter fun r =>
    between r.bucket filter.Range &&
      (match filter.ContractorID with
       | some cid => r.contractorId == some cid
       | none => true) &&
      (match filter.DriverID with
       | some did => r.driverId == some did
       | none => true) &&
      applyMVTripScope scope r.createdByOrgId r.contractorId
  let keys := sortBy (fun a b => decide (a ≤ b))
    (distinctList (rows.map fun r => dateTruncBy group r.bucket))
  let pts : List SeriesPoint := keys.map fun b =>
    let grp := rows.filter fun r => dateTruncBy group r.bucket == b
    { Bucket := b, Count := (grp.map (·.totalTrips)).foldl (· + ·) 0 }
  return pts

/-- `AnalyticsRepository.TripVolumeSeries` — time-bucketed trip counts
and volume sums from the `mv_trip_daily` rollup. -/
def TripVolumeSeries (db : DB) (scope : Scope) (filter : AnalyticsFilter) :
    Except RepoError (List SeriesPoint) := do
  if ¬ relationExists db "mv_trip_daily" then
    return []
  let mv ← readRel db.mvTripDaily
  let group := buildDateTrunc filter.groupBy
  let rows := mv.filter fun r =>
    between r.bucket filter.Range &&
      (match filter.ContractorID with
       | some cid => r.contractorId == some cid
       | none => true) &&
      (match filter.DriverID with
       | some did => r.driverId == some did
       | none => true) &&
      applyMVTripScope scope r.createdByOrgId r.contractorId
  let keys := sortBy (fun a b => decide (a ≤ b))
    (distinctList (rows.map fun r => dateTruncBy group r.bucket))
  let pts : List SeriesPoint := keys.map fun b =>
    let grp := rows.filter fun r => dateTruncBy group r.bucket == b
    { Bucket := b
      Count := (grp.map (·.totalTrips)).foldl (· + ·) 0
      Value := ratSum (grp.map (·.totalVolumeM3)) }
  return pts

/-- `AnalyticsRepository.TopDrivers` — trip counts/volumes per driver,
ordered by count descending, truncated, with shares over the returned
set. -/
def TopDrivers (db : DB) (scope : Scope) (filter : AnalyticsFilter)
    (limit : Nat) : Except RepoError (List EntityMetric) := do
  if ¬ tablesAvailable db ["trips", "drivers", "tickets"] then
    return []
  let trips ← readRel db.trips
  let drivers ← readRel db.drivers
  let tickets ← readRel db.tickets
  let rows := trips.filter fun tr =>
    tr.driverId.isSome && between tr.entryAt filter.Range &&
      (let tk := findTicket tickets tr.ticketId
       applyTripScope scope (ticketCreatedByOrg tk) (ticketContractor tk))
  let keys := distinctList (rows.map (·.driverId))
  let grouped : List MetricRow := keys.map fun k =>
    let grp := rows.filter fun tr => tr.driverId == k
    { key := k
      count := countWhere (fun _ => true) grp
      volume := sumOpt (grp.map (·.detectedVolumeEntry)) }
  let limited := (sortBy (fun a b => decide (b.count ≤ a.count)) grouped).take limit
  let total : ℚ := ratSum (limited.map fun r => ((r.count : Int) : ℚ))
  let result : List EntityMetric := limited.map fun r =>
    { ID := r.key.getD 0
      Name := ((findDriver drivers r.key).bind (·.fullName)).getD "Driver"
      Count := r.count
      Volume := r.volume
      Share := if total > 0 then (r.count : ℚ) / total else 0 }
  return result

/-- `AnalyticsRepository.TopContractors` — trip counts/volumes per
contractor, ordered by count descending, truncated, with shares. -/
def TopContractors (db : DB) (scope : Scope) (filter : AnalyticsFilter)
    (limit : Nat) : Except RepoError (List EntityMetric) := do
  if ¬ tablesAvailable db ["trips", "tickets", "organizations"] then
    return []
  let trips ← readRel db.trips
  let tickets ← readRel db.tickets
  let orgs ← readRel db.organizations
  let rows := trips.filter fun tr =>
    let tk := findTicket tickets tr.ticketId
    (ticketContractor tk).isSome && between tr.entryAt filter.Range &&
      applyTripScope scope (ticketCreatedByOrg tk) (ticketContractor tk)
  let keys := distinctList (rows.map fun tr =>
    ticketContractor (findTicket tickets tr.ticketId))
  let grouped : List MetricRow := keys.map fun k =>
    let grp := rows.filter fun tr =>
      ticketContractor (findTicket tickets tr.ticketId) == k
    { key := k
      count := countWhere (fun _ => true) grp
      volume := sumOpt (grp.map (·.detectedVolumeEntry)) }
  let limited := (sortBy (fun a b => decide (b.count ≤ a.count)) grouped).take limit
  let total : ℚ := ratSum (limited.map fun r => ((r.count : Int) : ℚ))
  let result : List EntityMetric := limited.map fun r =>
    { ID := r.key.getD 0
      Name := ((findOrg orgs r.key).bind (·.name)).getD "Contractor"
      Count := r.count
      Volume := r.volume
      Share := if total > 0 then (r.count : ℚ) / total else 0 }
  return result

/-- Trip duration in minutes: `(COALESCE(exit_at, entry_at) - entry_at)
in seconds / 60`. -/
def tripDurationMinutes (tr : Trip) : ℚ :=
  ((tr.exitAt.getD tr.entryAt - tr.entryAt : Int) : ℚ) / 60

/-- `AnalyticsRepository.TripDurationStats` — average and discrete 95th
percentile of trip durations. -/
def TripDurationStats (db : DB) (scope : Scope) (filter : AnalyticsFilter) :
    Except RepoError SnowOps.TripDurationStats := do
  if ¬ tablesAvailable db ["trips", "tickets"] then
    return {}
  let trips ← readRel db.trips
  let tickets ← readRel db.tickets
  let rows := (scopedTrips trips tickets scope).filter fun tr =>
    between tr.entryAt filter.Range
  let durations := rows.map tripDurationMinutes
  let avg : ℚ :=
    if durations.length = 0 then 0
    else ratSum durations / (durations.length : ℚ)
  return {
    AvgMinutes := clamp avg
    P95Minutes := clamp (percentileDisc (95 / 100) durations) }

/-- `AnalyticsRepository.TripVolumeStats` — average/max/min of the
detected entry volume. -/
def TripVolumeStats (db : DB) (scope : Scope) (filter : AnalyticsFilter) :
    Except RepoError SnowOps.TripVolumeStats := do
  if ¬ tablesAvailable db ["trips", "tickets"] then
    return {}
  let trips ← readRel db.trips
  let tickets ← readRel db.tickets
  let rows := (scopedTrips trips tickets scope).filter fun tr =>
    between tr.entryAt filter.Range
  return {
    AvgVolume := avgOpt (rows.map (·.detectedVolumeEntry))
    MaxVolume := maxOpt (rows.map (·.detectedVolumeEntry))
    MinVolume := minOpt (rows.map (·.detectedVolumeEntry)) }

/-- One `fetch` of `resolveTripEvents`: a `Scan` that matches no row
leaves the zero-value row (so a dangling event id yields a zero event,
not `nil`), and a query error (absent relation) yields `nil`. -/
def fetchTripEvent (rel : Option (List SensorEvent)) (eventID : Option Nat) :
    Option TripEvent :=
  match eventID with
  | none => none
  | some id =>
    match rel with
    | none => none
    | some events =>
      match events.find? (fun e => e.id == id) with
      | some e =>
        some { EventID := e.id
               CameraID := e.cameraId
               PhotoURL := e.photoUrl
               Captured := e.detectedAt }
      | none => some {}

/-- `AnalyticsRepository.resolveTripEvents`. -/
def resolveTripEvents (db : DB)
    (entryLpr exitLpr entryVol exitVol : Option Nat) : TripEventDetails :=
  { EntryLPR := fetchTripEvent db.lprEvents entryLpr
    ExitLPR := fetchTripEvent db.lprEvents exitLpr
    EntryVolume := fetchTripEvent db.volumeEvents entryVol
    ExitVolume := fetchTripEvent db.volumeEvents exitVol }

/-- `AnalyticsRepository.TripDetails` — single-trip lookup; the scope
predicate is part of the query, so an out-of-scope id behaves exactly
like a missing one (`gorm.ErrRecordNotFound`). -/
def TripDetails (db : DB) (scope : Scope) (tripID : Nat) :
    Except RepoError SnowOps.TripDetails := do
  if ¬ tablesAvailable db ["trips", "tickets"] then
    throw .recordNotFound
  let trips ← readRel db.trips
  let tickets ← readRel db.tickets
  let drivers ← readRel db.drivers
  let vehicles ← readRel db.vehicles
  let orgs ← readRel db.organizations
  let found := trips.filter fun tr =>
    tr.id == tripID &&
      (let tk := findTicket tickets tr.ticketId
       applyTripScope scope (ticketCreatedByOrg tk) (ticketContractor tk))
  match found.head? with
  | none => throw .recordNotFound
  | some tr =>
    let tk := findTicket tickets tr.ticketId
    return {
      TripID := tr.id
      TicketID := tr.ticketId
      TicketName := tk.map (·.name)
      DriverID := tr.driverId
      DriverName := (findDriver drivers tr.driverId).bind (·.fullName)
      VehicleID := tr.vehicleId
      VehiclePlate := (findVehicle vehicles tr.vehicleId).bind (·.plateNumber)
      ContractorID := ticketContractor tk
      ContractorName := (findOrg orgs (ticketContractor tk)).bind (·.name)
      CleaningAreaID := tk.map (·.cleaningAreaId)
      PolygonID := tr.polygonId
      Status := tr.status
      EntryAt := tr.entryAt
      ExitAt := tr.exitAt
      DetectedVolumeEntry := tr.detectedVolumeEntry
      DetectedVolumeExit := tr.detectedVolumeExit
      Violations := []
      Events := resolveTripEvents db tr.entryLprEventId tr.exitLprEventId
        tr.entryVolumeEventId tr.exitVolumeEventId }

/-- `AnalyticsRepository.ViolationSeries` — time-bucketed violation
counts from the `mv_violation_daily` rollup. -/
def ViolationSeries (db : DB) (scope : Scope) (filter : AnalyticsFilter) :
    Except RepoError (List SeriesPoint) := do
  if ¬ relationExists db "mv_violation_daily" then
    return []
  let mv ← readRel db.mvViolationDaily
  let group := buildDateTrunc filter.groupBy
  let rows := mv.filter fun r =>
    between r.bucket filter.Range &&
      applyMVCleaningAreaScope scope r.createdByOrgId r.contractorId
  let keys := sortBy (fun a b => decide (a ≤ b))
    (distinctList (rows.map fun r => dateTruncBy group r.bucket))
  let pts : List SeriesPoint := keys.map fun b =>
    let grp := rows.filter fun r => dateTruncBy group r.bucket == b
    { Bucket := b, Count := (grp.map (·.violationCount)).foldl (· + ·) 0 }
  return pts

/-- `AnalyticsRepository.ViolationBreakdown` — violation counts by type
with shares over the full returned set. -/
def ViolationBreakdown (db : DB) (scope : Scope)
    (filter : AnalyticsFilter) :
    Except RepoError (List SnowOps.ViolationBreakdown) := do
  if ¬ relationExists db "mv_violation_daily" then
    return []
  let mv ← readRel db.mvViolationDaily
  let rows := mv.filter fun r =>
    between r.bucket filter.Range &&
      applyMVCleaningAreaScope scope r.createdByOrgId r.contractorId
  let keys := distinctList (rows.map (·.violationType))
  let grouped := keys.map fun k =>
    (k, (rows.filterMap fun r =>
      if r.violationType == k then some r.violationCount else none).foldl
      (· + ·) (0 : Int))
  let ordered := sortBy (fun a b => decide (b.2 ≤ a.2)) grouped
  let total : ℚ := ratSum (ordered.map fun r => ((r.2 : Int) : ℚ))
  let result : List SnowOps.ViolationBreakdown := ordered.map fun r =>
    { type := r.1
      Count := r.2
      Share := if total > 0 then (r.2 : ℚ) / total else 0 }
  return result

/-- `AnalyticsRepository.ViolationLeaders` — top offending entities for
the dynamically selected id column, counts of non-OK trips, shares over
the returned set. -/
def ViolationLeaders (db : DB) (scope : Scope) (filter : AnalyticsFilter)
    (column : String) (limit : Nat) :
    Except RepoError (List EntityMetric) := do
  if ¬ tablesAvailable db ["trips", "tickets"] then
    return []
  let trips ← readRel db.trips
  let tickets ← readRel db.tickets
  let orgs ← if strContains column "contractor" then
      readRel db.organizations
    else pure []
  let drivers ← if strContains column "driver" then
      readRel db.drivers
    else pure []
  let cameras ← if strContains column "camera" then
      readRel db.cameras
    else pure []
  let keyOf : Trip → Option Nat := fun tr =>
    if column == "t.contractor_id" then
      ticketContractor (findTicket tickets tr.ticketId)
    else if column == "tr.driver_id" then tr.driverId
    else if column == "tr.camera_id" then tr.cameraId
    else none
  let rows := trips.filter fun tr =>
    tr.status != "OK" && between tr.entryAt filter.Range &&
      (let tk := findTicket tickets tr.ticketId
       applyTripScope scope (ticketCreatedByOrg tk) (ticketContractor tk))
  let keys := distinctList (rows.map keyOf)
  let grouped : List MetricRow := keys.map fun k =>
    { key := k, count := countWhere (fun tr => keyOf tr == k) rows }
  let limited := (sortBy (fun a b => decide (b.count ≤ a.count)) grouped).take limit
  let total : ℚ := ratSum (limited.map fun r => ((r.count : Int) : ℚ))
  let nameOf : Option Nat → String := fun k =>
    if column == "t.contractor_id" then
      ((findOrg orgs k).bind (·.name)).getD "Contractor"
    else if column == "tr.driver_id" then
      ((findDriver drivers k).bind (·.fullName)).getD "Driver"
    else if column == "tr.camera_id" then
      ((findCamera cameras k).bind (·.name)).getD "Camera"
    else "Unknown"
  let result : List EntityMetric := limited.map fun r =>
    { ID := r.key.getD 0
      Name := nameOf r.key
      Count := r.count
      Share := if total > 0 then (r.count : ℚ) / total else 0 }
  return result

/-- `AnalyticsRepository.ContractorPerformance` — per-contractor KPI
table ordered by trip count ("utilization" divides the trip count by the
page-size limit, as the source does). -/
def ContractorPerformance (db : DB) (scope : Scope)
    (filter : AnalyticsFilter) (limit : Nat) :
    Except RepoError (List SnowOps.ContractorPerformance) := do
  if ¬ tablesAvailable db ["trips", "tickets", "organizations"] then
    return []
  let trips ← readRel db.trips
  let tickets ← readRel db.tickets
  let orgs ← readRel db.organizations
  let rows := trips.filter fun tr =>
    let tk := findTicket tickets tr.ticketId
    (ticketContractor tk).isSome && between tr.entryAt filter.Range &&
      applyTripScope scope (ticketCreatedByOrg tk) (ticketContractor tk)
  let keys := distinctList (rows.map fun tr =>
    ticketContractor (findTicket tickets tr.ticketId))
  let grouped := keys.map fun k =>
    let grp := rows.filter fun tr =>
      ticketContractor (findTicket tickets tr.ticketId) == k
    (k, grp)
  let limited := (sortBy (fun a b =>
    decide ((b.2.length : Int) ≤ (a.2.length : Int))) grouped).take limit
  let result : List SnowOps.ContractorPerformance := limited.map fun r =>
    let grp := r.2
    let tripCount : Int := (grp.length : Int)
    let violations : Int := countWhere (fun tr => tr.status != "OK") grp
    { ContractorID := r.1.getD 0
      ContractorName := ((findOrg orgs r.1).bind (·.name)).getD "Contractor"
      TripCount := tripCount
      AvgVolume := avgOpt (grp.map (·.detectedVolumeEntry))
      ViolationRate := clamp (if tripCount ≠ 0 then
        (violations : ℚ) / (tripCount : ℚ) else 0)
      ActiveDrivers := countDistinct (grp.map (·.driverId))
      Utilization := clamp ((tripCount : ℚ) / max (limit : ℚ) 1) }
  return result

/-- `AnalyticsRepository.DriverPerformance` — per-driver KPI table
ordered by trip count. -/
def DriverPerformance (db : DB) (scope : Scope) (filter : AnalyticsFilter)
    (limit : Nat) : Except RepoError (List SnowOps.DriverPerformance) := do
  if ¬ tablesAvailable db ["trips", "tickets", "drivers"] then
    return []
  let trips ← readRel db.trips
  let tickets ← readRel db.tickets
  let drivers ← readRel db.drivers
  let rows := trips.filter fun tr =>
    tr.driverId.isSome && between tr.entryAt filter.Range &&
      (let tk := findTicket tickets tr.ticketId
       applyTripScope scope (ticketCreatedByOrg tk) (ticketContractor tk))
  let keys := distinctList (rows.map (·.driverId))
  let grouped := keys.map fun k => (k, rows.filter fun tr => tr.driverId == k)
  let limited := (sortBy (fun a b =>
    decide ((b.2.length : Int) ≤ (a.2.length : Int))) grouped).take limit
  let result : List SnowOps.DriverPerformance := limited.map fun r =>
    let grp := r.2
    let tripCount : Int := (grp.length : Int)
    let violations : Int := countWhere (fun tr => tr.status != "OK") grp
    let durations := grp.map tripDurationMinutes
    { DriverID := r.1.getD 0
      DriverName := ((findDriver drivers r.1).bind (·.fullName)).getD "Driver"
      TripCount := tripCount
      AvgVolume := avgOpt (grp.map (·.detectedVolumeEntry))
      ViolationRate := clamp (if tripCount ≠ 0 then
        (violations : ℚ) / (tripCount : ℚ) else 0)
      AvgDuration := clamp (if durations.length = 0 then 0
        else ratSum durations / (durations.length : ℚ)) }
  return result

/-- `AnalyticsRepository.DriverKPIs` — per-(driver, contractor) KPI rows
(the `GROUP BY` includes the ticket's contractor) with last-activity
timestamp; honours the optional contractor/driver filters. -/
def DriverKPIs (db : DB) (scope : Scope) (filter : AnalyticsFilter) :
    Except RepoError (List DriverKPI) := do
  if ¬ tablesAvailable db ["trips", "drivers", "tickets", "organizations"] then
    return []
  let trips ← readRel db.trips
  let tickets ← readRel db.tickets
  let drivers ← readRel db.drivers
  let orgs ← readRel db.organizations
  let rows := trips.filter fun tr =>
    let tk := findTicket tickets tr.ticketId
    tr.driverId.isSome && between tr.entryAt filter.Range &&
      (match filter.ContractorID with
       | some cid => ticketContractor tk == some cid
       | none => true) &&
      (match filter.DriverID with
       | some did => tr.driverId == some did
       | none => true) &&
      applyTripScope scope (ticketCreatedByOrg tk) (ticketContractor tk)
  let keyOf : Trip → Option Nat × Option Nat := fun tr =>
    (tr.driverId, ticketContractor (findTicket tickets tr.ticketId))
  let keys := distinctList (rows.map keyOf)
  let result : List DriverKPI := keys.map fun k =>
    let grp := rows.filter fun tr => keyOf tr == k
    let tripCount : Int := (grp.length : Int)
    let violations : Int := countWhere (fun tr => tr.status != "OK") grp
    let durations := grp.map tripDurationMinutes
    { DriverID := k.1.getD 0
      DriverName := ((findDriver drivers k.1).bind (·.fullName)).getD "Driver"
      ContractorID := k.2
      ContractorName := (findOrg orgs k.2).bind (·.name)
      TripCount := tripCount
      AvgVolume := avgOpt (grp.map (·.detectedVolumeEntry))
      ViolationRate := clamp (if tripCount ≠ 0 then
        (violations : ℚ) / (tripCount : ℚ) else 0)
      AvgDuration := clamp (if durations.length = 0 then 0
        else ratSum durations / (durations.length : ℚ))
      LastTripAt := maxTime (grp.map (·.entryAt)) }
  return result

/-- The `CASE WHEN v.body_volume_m3 > 0 THEN volume / body_volume END`
fill-rate expression (SQL `NULL` when the vehicle or its capacity is
missing or non-positive). -/
def fillRateExpr (vehicles : List Vehicle) (tr : Trip) : Option ℚ :=
  match (findVehicle vehicles tr.vehicleId).bind (·.bodyVolumeM3) with
  | some bv => if bv > 0 then tr.detectedVolumeEntry.map (· / bv) else none
  | none => none

/-- `AnalyticsRepository.VehiclePerformance` — per-vehicle KPI table;
idle hours are the range width minus 1.5 h per trip, floored at zero. -/
def VehiclePerformance (db : DB) (scope : Scope) (filter : AnalyticsFilter)
    (limit : Nat) : Except RepoError (List SnowOps.VehiclePerformance) := do
  if ¬ tablesAvailable db ["trips", "tickets", "vehicles"] then
    return []
  let trips ← readRel db.trips
  let tickets ← readRel db.tickets
  let vehicles ← readRel db.vehicles
  let rows := trips.filter fun tr =>
    tr.vehicleId.isSome && between tr.entryAt filter.Range &&
      (let tk := findTicket tickets tr.ticketId
       applyTripScope scope (ticketCreatedByOrg tk) (ticketContractor tk))
  let keys := distinctList (rows.map (·.vehicleId))
  let grouped := keys.map fun k => (k, rows.filter fun tr => tr.vehicleId == k)
  let limited := (sortBy (fun a b =>
    decide ((b.2.length : Int) ≤ (a.2.length : Int))) grouped).take limit
  let rangeHours : ℚ :=
    ((filter.Range.To - filter.Range.From : Int) : ℚ) / 3600
  let result : List SnowOps.VehiclePerformance := limited.map fun r =>
    let grp := r.2
    let tripCount : Int := (grp.length : Int)
    let violations : Int := countWhere (fun tr => tr.status != "OK") grp
    { VehicleID := r.1.getD 0
      PlateNumber := ((findVehicle vehicles r.1).bind
        (·.plateNumber)).getD "Vehicle"
      TripCount := tripCount
      AvgFillRate := clamp (avgOpt (grp.map (fillRateExpr vehicles)))
      ViolationRate := clamp (if tripCount ≠ 0 then
        (violations : ℚ) / (tripCount : ℚ) else 0)
      IdleHours := max (rangeHours - (tripCount : ℚ) * (3 / 2)) 0 }
  return result

/-- `AnalyticsRepository.VehicleKPIs` — per-(vehicle, contractor) KPI
rows; idle hours are the hours from the last in-range trip to the range
end (the full range width when the group has no last trip). -/
def VehicleKPIs (db : DB) (scope : Scope) (filter : AnalyticsFilter) :
    Except RepoError (List VehicleKPI) := do
  if ¬ tablesAvailable db ["trips", "vehicles", "tickets", "organizations"] then
    return []
  let trips ← readRel db.trips
  let tickets ← readRel db.tickets
  let vehicles ← readRel db.vehicles
  let orgs ← readRel db.organizations
  let rows := trips.filter fun tr =>
    let tk := findTicket tickets tr.ticketId
    tr.vehicleId.isSome && between tr.entryAt filter.Range &&
      (match filter.ContractorID with
       | some cid => ticketContractor tk == some cid
       | none => true) &&
      applyTripScope scope (ticketCreatedByOrg tk) (ticketContractor tk)
  let keyOf : Trip → Option Nat × Option Nat := fun tr =>
    (tr.vehicleId, ticketContractor (findTicket tickets tr.ticketId))
  let keys := distinctList (rows.map keyOf)
  let rangeHours : ℚ :=
    ((filter.Range.To - filter.Range.From : Int) : ℚ) / 3600
  let result : List VehicleKPI := keys.map fun k =>
    let grp := rows.filter fun tr => keyOf tr == k
    let tripCount : Int := (grp.length : Int)
    let violations : Int := countWhere (fun tr => tr.status != "OK") grp
    let lastTrip := maxTime (grp.map (·.entryAt))
    let idle : ℚ :=
      match lastTrip with
      | some lt =>
        let delta : ℚ := ((filter.Range.To - lt : Int) : ℚ) / 3600
        if delta > 0 then delta else 0
      | none => if rangeHours > 0 then rangeHours else 0
    { VehicleID := k.1.getD 0
      PlateNumber := ((findVehicle vehicles k.1).bind
        (·.plateNumber)).getD "Vehicle"
      ContractorID := k.2
      ContractorName := (findOrg orgs k.2).bind (·.name)
      TripCount := tripCount
      AvgFillRate := clamp (avgOpt (grp.map (fillRateExpr vehicles)))
      ViolationRate := clamp (if tripCount ≠ 0 then
        (violations : ℚ) / (tripCount : ℚ) else 0)
      IdleHours := clamp idle
      LastTripAt := lastTrip }
  return result

/-- `AnalyticsRepository.TechnicalAnalytics` — camera load (delegated to
`CameraLoad` with the caller's scope), city-wide polygon loads, and
event totals/error rate/frequency over the range. -/
def TechnicalAnalytics (db : DB) (scope : Scope) (rng : DateRange) :
    Except RepoError SnowOps.TechnicalAnalytics := do
  if ¬ tablesAvailable db ["cameras"] then
    return {}
  let cameras ← CameraLoad db scope rng
  let polygonRows ←
    if tablesAvailable db ["polygons", "trips"] then do
      let polys ← readRel db.polygons
      let trips ← readRel db.trips
      let tripData := trips.filter fun tr =>
        tr.polygonId.isSome && between tr.entryAt rng
      let rows : List PolygonLoadMetric := polys.map fun p =>
        let grp := tripData.filter fun tr => tr.polygonId == some p.id
        { PolygonID := p.id
          PolygonName := p.name
          TripCount := (grp.length : Int)
          VolumeM3 := sumOpt (grp.map (·.detectedVolumeEntry))
          ErrorEvents := countWhere (fun tr => tr.status != "OK") grp }
      pure rows
    else pure []
  let totalEvents : Int := (cameras.map fun c =>
    c.LprEvents + c.VolumeEvents).foldl (· + ·) 0
  let errorEvents : Int := (cameras.map (·.ErrorEvents)).foldl (· + ·) 0
  let lastEvent ←
    if tablesAvailable db ["lpr_events", "volume_events"] then do
      let lpr ← readRel db.lprEvents
      let vol ← readRel db.volumeEvents
      let stamps := (lpr.filter fun e => between e.detectedAt rng).map
          (·.detectedAt) ++
        (vol.filter fun e => between e.detectedAt rng).map (·.detectedAt)
      pure (maxTime stamps)
    else pure none
  let durationHours : ℚ := ((rng.To - rng.From : Int) : ℚ) / 3600
  return {
    Cameras := cameras
    Polygons := polygonRows
    ErrorRate := clamp (if totalEvents > 0 then
      (errorEvents : ℚ) / (totalEvents : ℚ) else 0)
    LastEventAt := lastEvent
    TotalEvents := totalEvents
    EventFrequency := clamp (if durationHours > 0 then
      (totalEvents : ℚ) / durationHours else 0) }

end Repo

namespace Service

/-- `AnalyticsService.normalizeRange` — fills unset endpoints, corrects an
inverted range, and clamps the width to `maxRange` days.
`defaultRange`/`maxRange` come from `config.AnalyticsConfig`, which forces
both to be at least 1 (`DefaultRangeDays`/`MaxRangeDays` default to 7/90
and any value ≤ 0 is replaced). -/
def normalizeRange (defaultRange maxRange : Int) (now : Int)
    (rng : DateRange) : DateRange :=
  let rng := if rng.To = 0 then { rng with To := now } else rng
  let rng := if rng.From = 0 then
      { rng with From := rng.To - defaultRange * day } else rng
  let rng := if rng.To < rng.From then
      { rng with From := rng.To - day } else rng
  let maxDuration := maxRange * day
  if rng.To - rng.From > maxDuration then
    { rng with From := rng.To - maxDuration }
  else rng

/-- `AnalyticsService.normalizeFilter` — normalises the range and the
grouping granularity of a filter. -/
def normalizeFilter (defaultRange maxRange : Int) (now : Int)
    (filter : AnalyticsFilter) : AnalyticsFilter :=
  { filter with
    Range := normalizeRange defaultRange maxRange now filter.Range
    groupBy := filter.Bucket }

/-- Service-level outcome classification, as the HTTP handler maps it:
`ErrPermissionDenied` → 403, `ErrNotFound` → 404, anything else → an
opaque internal error (500). -/
inductive SvcError where
  | permissionDenied
  | notFound
  | internalError
  deriving Repr, DecidableEq

/-- A repository failure that reaches the handler unmapped is an
internal error. -/
def liftRepo : Except Repo.RepoError α → Except SvcError α
  | .ok a => .ok a
  | .error _ => .error .internalError

/-- `takeContracts`. -/
def takeContracts (items : List ContractProgress) (limit : Nat) :
    List ContractProgress :=
  if items.length ≤ limit then items else items.take limit

/-- `filterContracts`. -/
def filterContracts (items : List ContractProgress)
    (predicate : ContractProgress → Bool) : List ContractProgress :=
  items.filter predicate

/-- `convertCameraLeaders`. -/
def convertCameraLeaders (metrics : List EntityMetric) :
    List CameraLoadMetric :=
  metrics.map fun m =>
    { CameraID := m.ID, CameraName := m.Name, ErrorEvents := m.Count }

/-- `AnalyticsService.GetDashboard` — driver gate, scope resolution with
`ScopeUnsupported → PermissionDenied`, range normalisation; Technical
scope skips the operational sections and only receives camera load. -/
def GetDashboard (defaultRange maxRange : Int) (db : DB) (now : Int)
    (p : Principal) (children : List Nat) (rng : DateRange) :
    Except SvcError DashboardMetrics := do
  if p.IsDriver then throw .permissionDenied
  match ResolveScope p children with
  | .error .scopeUnsupported => throw .permissionDenied
  | .ok scope => do
    let rangeNormalized := normalizeRange defaultRange maxRange now rng
    let base : DashboardMetrics := { GeneratedFor := rangeNormalized }
    let metrics ←
      if scope.type != .technical then do
        let stats ← liftRepo (Repo.DashboardStats db scope rangeNormalized)
        let areas ← liftRepo
          (Repo.CleaningAreaActivity db scope rangeNormalized)
        let split ← liftRepo
          (Repo.ContractorActivitySplit db scope rangeNormalized)
        let contracts ← liftRepo (Repo.ContractProgress db scope now)
        let maps ← liftRepo (Repo.MapStates db scope rangeNormalized)
        pure { base with
          Stats := stats
          Areas := areas
          Contractors := { Active := split.1, Idle := split.2 }
          Contracts := contracts
          Map := { Areas := maps.1, Polygons := maps.2.1,
                   Cameras := maps.2.2 } }
      else pure base
    let cameraLoad ← liftRepo (Repo.CameraLoad db scope rangeNormalized)
    return { metrics with Cameras := cameraLoad }

/-- `AnalyticsService.GetTripAnalytics` — denies drivers, principals
whose scope does not resolve, and Technical scope. -/
def GetTripAnalytics (defaultRange maxRange : Int) (db : DB) (now : Int)
    (p : Principal) (children : List Nat) (filter : AnalyticsFilter) :
    Except SvcError TripAnalytics := do
  if p.IsDriver then throw .permissionDenied
  match ResolveScope p children with
  | .error _ => throw .permissionDenied
  | .ok scope => do
    if scope.type == .technical then throw .permissionDenied
    let normalized := normalizeFilter defaultRange maxRange now filter
    let series ← liftRepo (Repo.TripSeries db scope normalized)
    let volumeSeries ← liftRepo (Repo.TripVolumeSeries db scope normalized)
    let topDrivers ← liftRepo (Repo.TopDrivers db scope normalized 5)
    let topContractors ← liftRepo (Repo.TopContractors db scope normalized 5)
    let durationStats ← liftRepo (Repo.TripDurationStats db scope normalized)
    let volumeStats ← liftRepo (Repo.TripVolumeStats db scope normalized)
    return {
      Series := series
      VolumeSeries := volumeSeries
      TopDrivers := topDrivers
      TopContractors := topContractors
      DurationStats := durationStats
      VolumeStats := volumeStats }

/-- `AnalyticsService.GetTripDetails` — same gates as the trip report;
`gorm.ErrRecordNotFound` (no row, or row out of scope) becomes
`NotFound`. -/
def GetTripDetails (db : DB) (p : Principal) (children : List Nat)
    (tripID : Nat) : Except SvcError TripDetails := do
  if p.IsDriver then throw .permissionDenied
  match ResolveScope p children with
  | .error _ => throw .permissionDenied
  | .ok scope => do
    if scope.type == .technical then throw .permissionDenied
    match Repo.TripDetails db scope tripID with
    | .error .recordNotFound => throw .notFound
    | .error _ => throw .internalError
    | .ok details => return details

/-- `AnalyticsService.GetViolationAnalytics`. -/
def GetViolationAnalytics (defaultRange maxRange : Int) (db : DB)
    (now : Int) (p : Principal) (children : List Nat)
    (filter : AnalyticsFilter) : Except SvcError ViolationAnalytics := do
  if p.IsDriver then throw .permissionDenied
  match ResolveScope p children with
  | .error _ => throw .permissionDenied
  | .ok scope => do
    if scope.type == .technical then throw .permissionDenied
    let normalized := normalizeFilter defaultRange maxRange now filter
    let series ← liftRepo (Repo.ViolationSeries db scope normalized)
    let breakdown ← liftRepo (Repo.ViolationBreakdown db scope normalized)
    let topContractors ← liftRepo
      (Repo.ViolationLeaders db scope normalized "t.contractor_id" 5)
    let topDrivers ← liftRepo
      (Repo.ViolationLeaders db scope normalized "tr.driver_id" 5)
    let topCameras ← liftRepo
      (Repo.ViolationLeaders db scope normalized "tr.camera_id" 5)
    return {
      Series := series
      Breakdown := breakdown
      TopContractors := topContractors
      TopDrivers := topDrivers
      TopCameras := convertCameraLeaders topCameras }

/-- `AnalyticsService.GetPerformanceAnalytics`. -/
def GetPerformanceAnalytics (defaultRange maxRange : Int) (db : DB)
    (now : Int) (p : Principal) (children : List Nat)
    (filter : AnalyticsFilter) : Except SvcError PerformanceAnalytics := do
  if p.IsDriver then throw .permissionDenied
  match ResolveScope p children with
  | .error _ => throw .permissionDenied
  | .ok scope => do
    if scope.type == .technical then throw .permissionDenied
    let normalized := normalizeFilter defaultRange maxRange now filter
    let contractors ← liftRepo
      (Repo.ContractorPerformance db scope normalized 10)
    let drivers ← liftRepo (Repo.DriverPerformance db scope normalized 10)
    let vehicles ← liftRepo (Repo.VehiclePerformance db scope normalized 10)
    return { Contractors := contractors, Drivers := drivers,
             Vehicles := vehicles }

/-- `AnalyticsService.GetContractAnalytics` — contract progress plus the
"top budget", "at risk" and "budget overrun" derived subsets. -/
def GetContractAnalytics (db : DB) (now : Int) (p : Principal)
    (children : List Nat) : Except SvcError ContractAnalytics := do
  if p.IsDriver then throw .permissionDenied
  match ResolveScope p children with
  | .error _ => throw .permissionDenied
  | .ok scope => do
    if scope.type == .technical then throw .permissionDenied
    let contracts ← liftRepo (Repo.ContractProgress db scope now)
    let summary := Repo.sortBy
      (fun a b => decide (b.BudgetProgress < a.BudgetProgress)) contracts
    let topBudget := takeContracts summary 5
    let atRisk := filterContracts contracts fun c =>
      c.UIStatus == "EXPIRED" && c.Result == "FAIL"
    let budgetIssues := filterContracts contracts fun c =>
      decide (c.BudgetProgress > 1)
    let atRiskSorted := Repo.sortBy
      (fun a b => decide (a.VolumeProgress < b.VolumeProgress)) atRisk
    let budgetIssuesSorted := Repo.sortBy
      (fun a b => decide (b.BudgetProgress < a.BudgetProgress)) budgetIssues
    return {
      Summary := contracts
      TopBudget := topBudget
      AtRisk := takeContracts atRiskSorted 5
      BudgetIssues := takeContracts budgetIssuesSorted 5 }

/-- `AnalyticsService.GetAreaAnalytics` — additionally denies
Technical-Operators up front. -/
def GetAreaAnalytics (defaultRange maxRange : Int) (db : DB) (now : Int)
    (p : Principal) (children : List Nat) (filter : AnalyticsFilter) :
    Except SvcError (List CleaningAreaAnalyticsRow) := do
  if p.IsDriver || p.IsToo then throw .permissionDenied
  match ResolveScope p children with
  | .error _ => throw .permissionDenied
  | .ok scope => do
    if scope.type == .technical then throw .permissionDenied
    let normalized := normalizeFilter defaultRange maxRange now filter
    liftRepo (Repo.CleaningAreaAnalytics db scope normalized)

/-- `AnalyticsService.GetDriverKPIs` — additionally denies
Technical-Operators up front. -/
def GetDriverKPIs (defaultRange maxRange : Int) (db : DB) (now : Int)
    (p : Principal) (children : List Nat) (filter : AnalyticsFilter) :
    Except SvcError (List DriverKPI) := do
  if p.IsDriver || p.IsToo then throw .permissionDenied
  match ResolveScope p children with
  | .error _ => throw .permissionDenied
  | .ok scope => do
    if scope.type == .technical then throw .permissionDenied
    let normalized := normalizeFilter defaultRange maxRange now filter
    liftRepo (Repo.DriverKPIs db scope normalized)

/-- `AnalyticsService.GetVehicleKPIs` — additionally denies
Technical-Operators up front. -/
def GetVehicleKPIs (defaultRange maxRange : Int) (db : DB) (now : Int)
    (p : Principal) (children : List Nat) (filter : AnalyticsFilter) :
    Except SvcError (List VehicleKPI) := do
  if p.IsDriver || p.IsToo then throw .permissionDenied
  match ResolveScope p children with
  | .error _ => throw .permissionDenied
  | .ok scope => do
    if scope.type == .technical then throw .permissionDenied
    let normalized := normalizeFilter defaultRange maxRange now filter
    liftRepo (Repo.VehicleKPIs db scope normalized)

/-- `AnalyticsService.GetTechnicalAnalytics` — reachable only by
Technical-Operator, City-Authority and Regional-Authority; a scope
resolution error is returned as-is (the handler would class it as an
internal error). -/
def GetTechnicalAnalytics (defaultRange maxRange : Int) (db : DB)
    (now : Int) (p : Principal) (children : List Nat) (rng : DateRange) :
    Except SvcError TechnicalAnalytics := do
  if ¬ (p.IsToo || p.IsAkimat || p.IsKgu) then throw .permissionDenied
  match ResolveScope p children with
  | .error _ => throw .internalError
  | .ok scope => do
    let normalized := normalizeRange defaultRange maxRange now rng
    liftRepo (Repo.TechnicalAnalytics db scope normalized)

end Service

/-! ## Theorems -/

open Repo

/-- C1: for every scope other than City, every row visible through the
scope predicates satisfies that scope's single scope-derived predicate —
Contractor scope only rows whose contractor equals its own organization;
Regional (kgu) scope only rows whose creating organization is its own or
whose contractor is a child contractor, falling back to
creating-organization-only when no child list was resolved; Technical
scope sees no trip/ticket/contract rows at all (and correspondingly the
contract aggregator returns only own-contractor rows for Contractor
scope, and zero operational data for Technical scope). -/
theorem scope_predicate_no_cross_tenant (scope : Scope)
    (trips : List Trip) (tickets : List Ticket) (contracts : List Contract)
    (db : DB) (now : Int) (rng : DateRange) (filter : AnalyticsFilter) :
    (∀ org, scope.type = .contractor → scope.OrgID = some org →
      (∀ tr ∈ scopedTrips trips tickets scope,
        ticketContractor (findTicket tickets tr.ticketId) = some org) ∧
      (∀ t ∈ tickets.filter (applyTicketScope scope),
        t.contractorId = some org) ∧
      (∀ c ∈ contracts.filter (applyContractScope scope),
        c.contractorId = org) ∧
      (∀ l, Repo.ContractProgress db scope now = .ok l →
        ∀ r ∈ l, r.ContractorID = org)) ∧
    (∀ org, scope.type = .kgu → scope.OrgID = some org →
      (∀ tr ∈ scopedTrips trips tickets scope,
        ticketCreatedByOrg (findTicket tickets tr.ticketId) = some org ∨
        ∃ c, ticketContractor (findTicket tickets tr.ticketId) = some c ∧
          c ∈ scope.ContractorIDs) ∧
      (scope.ContractorIDs = [] →
        ∀ tr ∈ scopedTrips trips tickets scope,
          ticketCreatedByOrg (findTicket tickets tr.ticketId) = some org) ∧
      (∀ t ∈ tickets.filter (applyTicketScope scope),
        t.createdByOrgId = org) ∧
      (∀ c ∈ contracts.filter (applyContractScope scope),
        c.createdByOrg = org)) ∧
    (scope.type = .technical →
      scopedTrips trips tickets scope = [] ∧
      tickets.filter (applyTicketScope scope) = [] ∧
      contracts.filter (applyContractScope scope) = [] ∧
      Repo.DashboardStats db scope rng = .ok {} ∧
      Repo.TripSeries db scope filter = .ok []) := by
  refine ⟨?_, ?_, ?_⟩
  · intro org htype horg
    refine ⟨?_, ?_, ?_, ?_⟩
    · intro tr htr
      simp only [scopedTrips, List.mem_filter] at htr
      obtain ⟨-, hp⟩ := htr
      simpa [applyTripScope, htype, horg] using hp
    · intro t ht
      obtain ⟨-, hp⟩ := List.mem_filter.mp ht
      simpa [applyTicketScope, htype, horg] using hp
    · intro c hc
      obtain ⟨-, hp⟩ := List.mem_filter.mp hc
      simpa [applyContractScope, htype, horg] using hp
    · intro l hl r hr
      rcases hcs : db.contracts with _ | cs <;>
        rcases hus : db.contractUsage with _ | us <;>
          rcases hos : db.organizations with _ | os <;>
            simp [Repo.ContractProgress, Repo.tablesAvailable,
              Repo.relationExists, DB.relation, hcs, hus, hos, Repo.readRel,
              pure, Except.pure, bind, Except.bind] at hl <;>
            subst hl
      · simp at hr
      · simp at hr
      · simp at hr
      · simp at hr
      · simp at hr
      · simp at hr
      · simp at hr
      · obtain ⟨c, hcmem, rfl⟩ := List.mem_map.mp hr
        obtain ⟨-, hp⟩ := List.mem_filter.mp hcmem
        simpa [applyContractScope, htype, horg] using hp
  · intro org htype horg
    refine ⟨?_, ?_, ?_, ?_⟩
    · intro tr htr
      simp only [scopedTrips, List.mem_filter] at htr
      obtain ⟨-, hp⟩ := htr
      simp only [applyTripScope, htype, horg] at hp
      by_cases hlen : scope.ContractorIDs.length > 0
      · simp only [hlen, if_true, if_pos, Bool.or_eq_true, beq_iff_eq] at hp
        rcases hp with hp | hp
        · exact Or.inl hp
        · rcases hcon : ticketContractor (findTicket tickets tr.ticketId) with
            _ | c
          · simp [hcon] at hp
          · refine Or.inr ⟨c, rfl, ?_⟩
            simp only [hcon] at hp
            simpa using hp
      · simp only [hlen, if_false, if_neg, beq_iff_eq] at hp
        exact Or.inl hp
    · intro hnil tr htr
      simp only [scopedTrips, List.mem_filter] at htr
      obtain ⟨-, hp⟩ := htr
      simpa [applyTripScope, htype, horg, hnil] using hp
    · intro t ht
      obtain ⟨-, hp⟩ := List.mem_filter.mp ht
      simpa [applyTicketScope, htype, horg] using hp
    · intro c hc
      obtain ⟨-, hp⟩ := List.mem_filter.mp hc
      simpa [applyContractScope, htype, horg] using hp
  · intro htype
    refine ⟨?_, ?_, ?_, ?_, ?_⟩
    · simp [scopedTrips, applyTripScope, htype]
    · simp [applyTicketScope, htype]
    · simp [applyContractScope, htype]
    · rcases hts : db.trips with _ | ts <;>
        rcases hks : db.tickets with _ | ks <;>
          simp [Repo.DashboardStats, Repo.tablesAvailable,
            Repo.relationExists, DB.relation, hts, hks, Repo.readRel,
            scopedTrips, applyTripScope, applyTicketScope, htype, countWhere,
            pure, Except.pure, bind, Except.bind]
    · rcases hms : db.mvTripDaily with _ | ms <;>
        simp [Repo.TripSeries, Repo.relationExists, DB.relation, hms,
          Repo.readRel, applyMVTripScope, htype, distinctList, sortBy,
          pure, Except.pure, bind, Except.bind]

/-- C1 witness: a Contractor scope for organization 1 sees a trip whose
ticket belongs to contractor 1, and the theorem reports that membership
fact for it. -/
theorem scope_predicate_no_cross_tenant_witness :
    Repo.ticketContractor (Repo.findTicket
      [{ id := 10, contractorId := some 1, createdByOrgId := 5 }]
      (some 10)) = some 1 :=
  ((scope_predicate_no_cross_tenant { type := .contractor, OrgID := some 1 }
      [{ id := 100, ticketId := some 10, entryAt := 0 }]
      [{ id := 10, contractorId := some 1, createdByOrgId := 5 }] [] {} 0 {}
      {}).1 1 rfl rfl).1
    { id := 100, ticketId := some 10, entryAt := 0 } (by decide)

/-- C2 counterexample: for a contract whose derived status is Expired
with total volume 5 and minimal volume 0, the code yields result NONE,
while the claim ("Success iff total ≥ minimal, for all values, including
a minimal volume of zero") demands SUCCESS there. -/
theorem deriveContractResult_zero_minimal_cex :
    Repo.deriveContractResult "EXPIRED" 5 0 = "NONE" ∧
    ¬ (Repo.deriveContractResult "EXPIRED" 5 0 = "SUCCESS" ↔ (5 : ℚ) ≥ 0) := by
  decide

/-- C2 amended: the result is NONE unless the status is Expired; when it
is Expired the result is NONE if the minimal volume is zero, and
otherwise SUCCESS iff total volume ≥ minimal volume, else FAIL. -/
theorem deriveContractResult_spec (status : String) (total minimal : ℚ) :
    (status ≠ "EXPIRED" →
      Repo.deriveContractResult status total minimal = "NONE") ∧
    (status = "EXPIRED" →
      (minimal = 0 →
        Repo.deriveContractResult status total minimal = "NONE") ∧
      (minimal ≠ 0 →
        (Repo.deriveContractResult status total minimal = "SUCCESS" ↔
          total ≥ minimal) ∧
        (Repo.deriveContractResult status total minimal = "FAIL" ↔
          total < minimal))) := by
  unfold Repo.deriveContractResult
  split_ifs with h1 h2 h3 <;> simp_all

/-- C2 witness: a non-Expired status yields NONE, and the spec scenario
(total 80 against minimal 100, Expired) yields FAIL. -/
theorem deriveContractResult_spec_witness :
    Repo.deriveContractResult "PLANNED" 7 0 = "NONE" ∧
    (Repo.deriveContractResult "EXPIRED" 80 100 = "FAIL" ↔ (80 : ℚ) < 100) :=
  ⟨(deriveContractResult_spec "PLANNED" 7 0).1 (by decide),
   (((deriveContractResult_spec "EXPIRED" 80 100).2 rfl).2 (by norm_num)).2⟩

/-- C7: range normalization always yields `From ≤ To` with a width of at
most `maxRange` days, fills an unset `To` with "now" and an unset `From`
with `To` minus the default range, corrects an inverted range to one day
and clamps over-wide ranges — for every input range and every configured
`maxRange` (the configuration loader guarantees `1 ≤ maxRange`); the
function is total, so it never errors. -/
theorem normalizeRange_spec (defaultRange maxRange now : Int)
    (rng : DateRange) (hmax : 1 ≤ maxRange) :
    let r := Service.normalizeRange defaultRange maxRange now rng
    let t := if rng.To = 0 then now else rng.To
    let f := if rng.From = 0 then t - defaultRange * day else rng.From
    r.To = t ∧
    (t < f → r.From = t - day) ∧
    (f ≤ t → t - f > maxRange * day → r.From = t - maxRange * day) ∧
    (f ≤ t → t - f ≤ maxRange * day → r.From = f) ∧
    r.From ≤ r.To ∧ r.To - r.From ≤ maxRange * day := by
  simp only [Service.normalizeRange, day] at *
  split_ifs <;> simp_all <;> omega

/-- C7 witness: with the default configuration (7/90 days) an empty
range normalizes to a valid one. -/
theorem normalizeRange_spec_witness :
    (1 : Int) ≤ 90 ∧
    (Service.normalizeRange 7 90 1000000 {}).From ≤
      (Service.normalizeRange 7 90 1000000 {}).To :=
  ⟨by decide, (normalizeRange_spec 7 90 1000000 {} (by decide)).2.2.2.2.1⟩

/-- C10: the derived contract status is total and exclusive — PLANNED
exactly when now is strictly before the start, EXPIRED exactly when now
is (not before the start and) strictly after the end, ACTIVE otherwise;
both boundary instants of a proper window yield ACTIVE, and every input,
including an inverted window, yields one of the three statuses. -/
theorem deriveContractStatus_total_exclusive (s e n : Int) :
    (Repo.deriveContractStatus s e n = "PLANNED" ∨
     Repo.deriveContractStatus s e n = "ACTIVE" ∨
     Repo.deriveContractStatus s e n = "EXPIRED") ∧
    (Repo.deriveContractStatus s e n = "PLANNED" ↔ n < s) ∧
    (Repo.deriveContractStatus s e n = "EXPIRED" ↔ s ≤ n ∧ e < n) ∧
    (Repo.deriveContractStatus s e n = "ACTIVE" ↔ s ≤ n ∧ n ≤ e) ∧
    (s ≤ e → Repo.deriveContractStatus s e s = "ACTIVE" ∧
      Repo.deriveContractStatus s e e = "ACTIVE") := by
  unfold Repo.deriveContractStatus
  split_ifs with h1 h2 <;>
    refine ⟨by simp, ?_, ?_, ?_, ?_⟩ <;>
    simp_all

/-- C10 witness: both boundary instants of the window [0, 10] derive
status ACTIVE. -/
theorem deriveContractStatus_witness :
    (0 : Int) ≤ 10 ∧
    Repo.deriveContractStatus 0 10 0 = "ACTIVE" ∧
    Repo.deriveContractStatus 0 10 10 = "ACTIVE" :=
  ⟨by decide, (deriveContractStatus_total_exclusive 0 10 0).2.2.2.2 (by decide)⟩

/-- C8: when the requested trip id does not resolve within the caller's
scope (no trip with that id passes the scope predicate — in particular a
trip belonging to another contractor), the trip-details lookup reports
NotFound, never PermissionDenied, so out-of-scope existence is not
leaked.  The relation-presence hypotheses say the query's joined tables
exist (a missing joined table is a query error, i.e. an internal error,
for every id alike). -/
theorem trip_details_out_of_scope_notFound (db : DB) (p : Principal)
    (children : List Nat) (tripID : Nat) (scope : Scope)
    (trips : List Trip) (tickets : List Ticket)
    (hdrv : p.Role ≠ .driver)
    (hres : ResolveScope p children = .ok scope)
    (htech : scope.type ≠ .technical)
    (htr : db.trips = some trips) (htk : db.tickets = some tickets)
    (hd : db.drivers.isSome) (hv : db.vehicles.isSome)
    (ho : db.organizations.isSome)
    (hout : ∀ tr ∈ trips, tr.id = tripID →
      applyTripScope scope
        (ticketCreatedByOrg (findTicket tickets tr.ticketId))
        (ticketContractor (findTicket tickets tr.ticketId)) = false) :
    Service.GetTripDetails db p children tripID = .error .notFound := by
  obtain ⟨ds, hds⟩ := Option.isSome_iff_exists.mp hd
  obtain ⟨vs, hvs⟩ := Option.isSome_iff_exists.mp hv
  obtain ⟨os, hos⟩ := Option.isSome_iff_exists.mp ho
  have hdrv' : p.IsDriver = false := by
    simp [Principal.IsDriver, hdrv]
  have htech' : (scope.type == ScopeType.technical) = false := by
    simp [htech]
  have hfilter : trips.filter (fun tr => tr.id == tripID &&
      applyTripScope scope
        (ticketCreatedByOrg (findTicket tickets tr.ticketId))
        (ticketContractor (findTicket tickets tr.ticketId))) = [] := by
    rw [List.filter_eq_nil_iff]
    intro tr htrm
    by_cases hid : tr.id = tripID
    · simp [hid, hout tr htrm hid]
    · simp [hid]
  simp [Service.GetTripDetails, hdrv', hres, htech',
    Repo.TripDetails, Repo.tablesAvailable, Repo.relationExists, DB.relation,
    htr, htk, hds, hvs, hos, Repo.readRel, hfilter,
    pure, Except.pure, bind, Except.bind]
  rfl

/-- C8 witness: a Contractor-scope caller (organization 1) requesting
trip 100, which belongs to contractor 2, receives NotFound. -/
theorem trip_details_out_of_scope_notFound_witness :
    Service.GetTripDetails
      { trips := some [{ id := 100, ticketId := some 10, entryAt := 0 }]
        tickets := some [{ id := 10, contractorId := some 2,
                           createdByOrgId := 5 }]
        drivers := some []
        vehicles := some []
        organizations := some [] }
      { Role := .contractor, OrgID := some 1 } [] 100 =
    .error .notFound :=
  trip_details_out_of_scope_notFound _ _ _ 100
    { type := .contractor, OrgID := some 1 }
    [{ id := 100, ticketId := some 10, entryAt := 0 }]
    [{ id := 10, contractorId := some 2, createdByOrgId := 5 }]
    (by decide) rfl (by decide) rfl rfl rfl rfl rfl (by decide)

/-- An `if x > 0 then x else 0` guard is exactly `max 0 x`. -/
theorem ite_pos_eq_max (d : ℚ) : (if d > 0 then d else 0) = max 0 d := by
  rcases le_or_lt d 0 with h | h
  · simp [not_lt.mpr h, max_eq_left h]
  · simp [h, max_eq_right (le_of_lt h)]

/-- C9 counterexample: for a city-wide vehicle-performance query over a
10-hour range with one trip whose last activity is exactly the range
end, the claimed formula `max(0, range_end − last_activity)` gives 0
hours, but the code returns 8.5 (range width minus 1.5 h per trip). -/
theorem vehicle_idle_hours_cex :
    (Repo.VehiclePerformance
      { trips := some [{ id := 1, vehicleId := some 1, entryAt := 36000 }]
        tickets := some []
        vehicles := some [{ id := 1, plateNumber := some "A",
                            bodyVolumeM3 := some 10 }] }
      { type := .city } { Range := { From := 0, To := 36000 } } 10).map
      (List.map VehiclePerformance.IdleHours) = .ok [17 / 2] ∧
    max (0 : ℚ) (((36000 - 36000 : Int) : ℚ) / 3600) = 0 ∧
    (17 / 2 : ℚ) ≠ 0 := by
  refine ⟨by with_unfolding_all rfl, by norm_num, by norm_num⟩

/-- C9 amended: idle hours are never negative for all three idle-hour
aggregators; the vehicle-KPI and cleaning-area aggregators compute
`max(0, range_end − last_activity)` in hours (vehicle KPI falls back to
the full range width when there is no activity, the cleaning-area
aggregator to 0), while vehicle performance instead computes
`max(0, range_width − 1.5·trip_count)` in hours. -/
theorem idle_hours_spec (db : DB) (scope : Scope) (filter : AnalyticsFilter)
    (limit : Nat) :
    (∀ l, Repo.VehicleKPIs db scope filter = .ok l → ∀ r ∈ l,
      (∀ t, r.LastTripAt = some t →
        r.IdleHours = max 0 (((filter.Range.To - t : Int) : ℚ) / 3600)) ∧
      (r.LastTripAt = none →
        r.IdleHours =
          max 0 (((filter.Range.To - filter.Range.From : Int) : ℚ) / 3600)) ∧
      0 ≤ r.IdleHours) ∧
    (∀ l, Repo.CleaningAreaAnalytics db scope filter = .ok l → ∀ r ∈ l,
      (∀ t, r.LastTripAt = some t →
        r.IdleHours = max 0 (((filter.Range.To - t : Int) : ℚ) / 3600)) ∧
      (r.LastTripAt = none → r.IdleHours = 0) ∧
      0 ≤ r.IdleHours) ∧
    (∀ l, Repo.VehiclePerformance db scope filter limit = .ok l → ∀ r ∈ l,
      r.IdleHours = max 0
        ((((filter.Range.To - filter.Range.From : Int) : ℚ) / 3600) -
          (r.TripCount : ℚ) * (3 / 2)) ∧
      0 ≤ r.IdleHours) := by
  refine ⟨?_, ?_, ?_⟩
  · intro l hl r hr
    by_cases g : Repo.tablesAvailable db
      ["trips", "vehicles", "tickets", "organizations"]
    · have g' := g
      simp only [Repo.tablesAvailable, Repo.relationExists, DB.relation,
        List.all_cons, List.all_nil, Bool.and_eq_true,
        Option.isSome_map'] at g'
      obtain ⟨h1, h2, h3, h4, -⟩ := g'
      obtain ⟨ts, hts⟩ := Option.isSome_iff_exists.mp h1
      obtain ⟨vs, hvs⟩ := Option.isSome_iff_exists.mp h2
      obtain ⟨ks, hks⟩ := Option.isSome_iff_exists.mp h3
      obtain ⟨os, hos⟩ := Option.isSome_iff_exists.mp h4
      simp only [Repo.VehicleKPIs, g, hts, hvs, hks, hos, Repo.readRel,
        not_true, Bool.not_true, pure, Except.pure, bind, Except.bind,
        if_neg, reduceIte, Except.ok.injEq] at hl
      subst hl
      obtain ⟨k, hk, rfl⟩ := List.mem_map.mp hr
      refine ⟨?_, ?_, ?_⟩
      · intro t ht
        simp only at ht ⊢
        simp only [ht, clamp]
        exact ite_pos_eq_max _
      · intro ht
        simp only at ht ⊢
        simp only [ht, clamp]
        exact ite_pos_eq_max _
      · simp only [clamp]
        split
        · rw [ite_pos_eq_max]
          exact le_max_left 0 _
        · rw [ite_pos_eq_max]
          exact le_max_left 0 _
    · simp [Repo.VehicleKPIs, g, pure, Except.pure] at hl
      subst hl
      simp at hr
  · intro l hl r hr
    rcases hmv : db.mvCleaningAreaDaily with _ | mv
    · simp [Repo.CleaningAreaAnalytics, Repo.relationExists, DB.relation,
        hmv, pure, Except.pure] at hl
      subst hl
      simp at hr
    · rcases hca : db.cleaningAreas with _ | cas
      · simp [Repo.CleaningAreaAnalytics, Repo.relationExists, DB.relation,
          hmv, hca, Repo.readRel, pure, Except.pure, bind, Except.bind] at hl
      · have g : Repo.relationExists db "mv_cleaning_area_daily" = true := by
          simp [Repo.relationExists, DB.relation, hmv]
        simp only [Repo.CleaningAreaAnalytics, g, hmv, hca, Repo.readRel,
          not_true, Bool.not_true, pure, Except.pure, bind, Except.bind,
          if_neg, reduceIte, Except.ok.injEq] at hl
        subst hl
        obtain ⟨k, hk, rfl⟩ := List.mem_map.mp hr
        refine ⟨?_, ?_, ?_⟩
        · intro t ht
          simp only at ht ⊢
          simp only [ht, clamp]
          exact ite_pos_eq_max _
        · intro ht
          simp only at ht ⊢
          simp only [ht, clamp]
        · simp only [clamp]
          split
          · rw [ite_pos_eq_max]
            exact le_max_left 0 _
          · exact le_refl 0
  · intro l hl r hr
    by_cases g : Repo.tablesAvailable db ["trips", "tickets", "vehicles"]
    · have g' := g
      simp only [Repo.tablesAvailable, Repo.relationExists, DB.relation,
        List.all_cons, List.all_nil, Bool.and_eq_true,
        Option.isSome_map'] at g'
      obtain ⟨h1, h2, h3, -⟩ := g'
      obtain ⟨ts, hts⟩ := Option.isSome_iff_exists.mp h1
      obtain ⟨ks, hks⟩ := Option.isSome_iff_exists.mp h2
      obtain ⟨vs, hvs⟩ := Option.isSome_iff_exists.mp h3
      simp only [Repo.VehiclePerformance, g, hts, hks, hvs, Repo.readRel,
        not_true, Bool.not_true, pure, Except.pure, bind, Except.bind,
        if_neg, reduceIte, Except.ok.injEq] at hl
      subst hl
      obtain ⟨k, hk, rfl⟩ := List.mem_map.mp hr
      refine ⟨?_, ?_⟩
      · simp only
        exact max_comm _ 0
      · simp only
        exact le_max_right _ 0
    · simp [Repo.VehiclePerformance, g, pure, Except.pure] at hl
      subst hl
      simp at hr

/-- C9 witness: a vehicle whose last in-range trip is at hour 1 of a
10-hour range has 9 idle hours, which is `max(0, range_end −
last_activity)` in hours. -/
theorem idle_hours_spec_witness :
    ({ VehicleID := 1, PlateNumber := "Vehicle", TripCount := 1,
       IdleHours := 9, LastTripAt := some 3600 } : VehicleKPI).IdleHours =
      max 0 (((36000 - 3600 : Int) : ℚ) / 3600) :=
  ((idle_hours_spec
      { trips := some [{ id := 1, vehicleId := some 1, entryAt := 3600 }]
        tickets := some []
        vehicles := some [{ id := 1 }]
        organizations := some [] }
      { type := .city } { Range := { From := 0, To := 36000 } } 0).1
    [{ VehicleID := 1, PlateNumber := "Vehicle", TripCount := 1,
       IdleHours := 9, LastTripAt := some 3600 }]
    (by with_unfolding_all rfl)
    { VehicleID := 1, PlateNumber := "Vehicle", TripCount := 1,
      IdleHours := 9, LastTripAt := some 3600 }
    (by simp)).1 3600 rfl


/-- C5: whenever scope resolution fails with `ScopeUnsupported`, every
report operation returns a PermissionDenied outcome — the dashboard by
the explicit translation, the other reports by treating any resolver
failure as a denial, and the technical report because its role gate
already denies every role whose scope could fail to resolve — so the
failure is never surfaced as an internal error. -/
theorem scope_unsupported_permission_denied (dr mr : Int) (db : DB)
    (now : Int) (p : Principal) (children : List Nat) (rng : DateRange)
    (filter : AnalyticsFilter) (tripID : Nat)
    (h : ResolveScope p children = .error .scopeUnsupported) :
    Service.GetDashboard dr mr db now p children rng =
      .error .permissionDenied ∧
    Service.GetTripAnalytics dr mr db now p children filter =
      .error .permissionDenied ∧
    Service.GetTripDetails db p children tripID =
      .error .permissionDenied ∧
    Service.GetViolationAnalytics dr mr db now p children filter =
      .error .permissionDenied ∧
    Service.GetPerformanceAnalytics dr mr db now p children filter =
      .error .permissionDenied ∧
    Service.GetContractAnalytics db now p children =
      .error .permissionDenied ∧
    Service.GetAreaAnalytics dr mr db now p children filter =
      .error .permissionDenied ∧
    Service.GetDriverKPIs dr mr db now p children filter =
      .error .permissionDenied ∧
    Service.GetVehicleKPIs dr mr db now p children filter =
      .error .permissionDenied ∧
    Service.GetTechnicalAnalytics dr mr db now p children rng =
      .error .permissionDenied := by
  rcases p with ⟨u, o, role, d⟩
  cases role <;>
    simp_all [ResolveScope, Service.GetDashboard, Service.GetTripAnalytics,
      Service.GetTripDetails, Service.GetViolationAnalytics,
      Service.GetPerformanceAnalytics, Service.GetContractAnalytics,
      Service.GetAreaAnalytics, Service.GetDriverKPIs,
      Service.GetVehicleKPIs, Service.GetTechnicalAnalytics,
      Principal.IsDriver, Principal.IsToo, Principal.IsAkimat,
      Principal.IsKgu, throw, throwThe, MonadExceptOf.throw, bind,
      Except.bind, pure, Except.pure]


/-- C5 witness: a principal with an unrecognised role fails scope
resolution and is denied on the dashboard. -/
theorem scope_unsupported_permission_denied_witness :
    ResolveScope { Role := .unknown } [] = .error .scopeUnsupported ∧
    Service.GetDashboard 7 90 {} 0 { Role := .unknown } [] {} =
      .error .permissionDenied :=
  ⟨rfl, (scope_unsupported_permission_denied 7 90 {} 0 { Role := .unknown }
    [] {} {} 0 rfl).1⟩

/-- C4 counterexample: with one camera and no trips, a City-Authority
caller's technical report contains the camera, but a Regional-Authority
caller's technical report over the same normalized range does not — the
camera statistics are scope-filtered for Regional scope, so not all
eligible roles receive the same city-wide data. -/
theorem technical_not_cityWide_cex :
    (Service.GetTechnicalAnalytics 7 90
      { cameras := some [{ id := 1, name := some "C" }]
        polygons := some []
        trips := some []
        tickets := some []
        lprEvents := some []
        volumeEvents := some [] }
      0 { Role := .akimat } [] { From := 1, To := 2 }).map
      (fun t => t.Cameras.length) = .ok 1 ∧
    (Service.GetTechnicalAnalytics 7 90
      { cameras := some [{ id := 1, name := some "C" }]
        polygons := some []
        trips := some []
        tickets := some []
        lprEvents := some []
        volumeEvents := some [] }
      0 { Role := .kgu, OrgID := some 1 } [] { From := 1, To := 2 }).map
      (fun t => t.Cameras.length) = .ok 0 ∧
    (1 : Nat) ≠ 0 := by
  refine ⟨by with_unfolding_all rfl, by with_unfolding_all rfl, by decide⟩


/-- The polygon load rows of the technical report, as computed by
`TechnicalAnalytics` whichever scope called it (used to state that the
polygon section is city-wide). -/
def technicalPolygonRows (db : DB) (rng : DateRange) :
    List PolygonLoadMetric :=
  if Repo.tablesAvailable db ["cameras"] then
    if Repo.tablesAvailable db ["polygons", "trips"] then
      match db.polygons, db.trips with
      | some polys, some trips =>
        let tripData := trips.filter fun tr =>
          tr.polygonId.isSome && Repo.between tr.entryAt rng
        polys.map fun p =>
          let grp := tripData.filter fun tr => tr.polygonId == some p.id
          { PolygonID := p.id
            PolygonName := p.name
            TripCount := (grp.length : Int)
            VolumeM3 := Repo.sumOpt (grp.map (·.detectedVolumeEntry))
            ErrorEvents := Repo.countWhere (fun tr => tr.status != "OK") grp }
      | _, _ => []
    else []
  else []

/-- Whenever the technical report succeeds, its polygon section is the
scope-independent `technicalPolygonRows`. -/
theorem technicalAnalytics_polygons (db : DB) (scope : Scope)
    (rng : DateRange) (t : TechnicalAnalytics)
    (h : Repo.TechnicalAnalytics db scope rng = .ok t) :
    t.Polygons = technicalPolygonRows db rng := by
  by_cases g : Repo.tablesAvailable db ["cameras"]
  · rcases hcl : Repo.CameraLoad db scope rng with e | cams
    · simp [Repo.TechnicalAnalytics, g, hcl, bind, Except.bind, pure,
        Except.pure] at h
    · by_cases g2 : Repo.tablesAvailable db ["polygons", "trips"]
      · have g2' := g2
        simp only [Repo.tablesAvailable, Repo.relationExists, DB.relation,
          List.all_cons, List.all_nil, Bool.and_eq_true,
          Option.isSome_map'] at g2'
        obtain ⟨h1, h2, -⟩ := g2'
        obtain ⟨ps, hps⟩ := Option.isSome_iff_exists.mp h1
        obtain ⟨ts, hts⟩ := Option.isSome_iff_exists.mp h2
        by_cases g3 : Repo.tablesAvailable db ["lpr_events", "volume_events"]
        · have g3' := g3
          simp only [Repo.tablesAvailable, Repo.relationExists, DB.relation,
            List.all_cons, List.all_nil, Bool.and_eq_true,
            Option.isSome_map'] at g3'
          obtain ⟨h3, h4, -⟩ := g3'
          obtain ⟨ls, hls⟩ := Option.isSome_iff_exists.mp h3
          obtain ⟨vs, hvs⟩ := Option.isSome_iff_exists.mp h4
          simp only [Repo.TechnicalAnalytics, g, hcl, g2, g3, hps, hts, hls,
            hvs, Repo.readRel, not_true, Bool.not_true, pure, Except.pure,
            bind, Except.bind, if_neg, reduceIte, Except.ok.injEq] at h
          subst h
          simp [technicalPolygonRows, g, g2, hps, hts]
        · simp [Repo.TechnicalAnalytics, g, hcl, g2, g3, hps, hts,
            Repo.readRel, pure, Except.pure, bind, Except.bind] at h
          subst h
          simp [technicalPolygonRows, g, g2, hps, hts]
      · by_cases g3 : Repo.tablesAvailable db ["lpr_events", "volume_events"]
        · have g3' := g3
          simp only [Repo.tablesAvailable, Repo.relationExists, DB.relation,
            List.all_cons, List.all_nil, Bool.and_eq_true,
            Option.isSome_map'] at g3'
          obtain ⟨h3, h4, -⟩ := g3'
          obtain ⟨ls, hls⟩ := Option.isSome_iff_exists.mp h3
          obtain ⟨vs, hvs⟩ := Option.isSome_iff_exists.mp h4
          simp [Repo.TechnicalAnalytics, g, hcl, g2, g3, hls, hvs,
            Repo.readRel, pure, Except.pure, bind, Except.bind] at h
          subst h
          simp [technicalPolygonRows, g, g2]
        · simp [Repo.TechnicalAnalytics, g, hcl, g2, g3,
            Repo.readRel, pure, Except.pure, bind, Except.bind] at h
          subst h
          simp [technicalPolygonRows, g, g2]
  · simp [Repo.TechnicalAnalytics, g, pure, Except.pure] at h
    subst h
    simp [technicalPolygonRows, g]


/-- C4 amended: the technical report is reachable only by
Technical-eligible roles, its polygon statistics are always city-wide,
and its camera statistics are city-wide (identical for every scope) for
City and Technical scopes — but for Regional (and Contractor) scopes
the camera list is restricted to cameras seen by in-scope trips in the
range. -/
theorem technical_report_scope (db : DB) (rng : DateRange)
    (scope scope2 : Scope) (trips : List Trip) (tickets : List Ticket) :
    ((scope.type = .city ∨ scope.type = .technical) →
     (scope2.type = .city ∨ scope2.type = .technical) →
      Repo.CameraLoad db scope rng = Repo.CameraLoad db scope2 rng ∧
      Repo.TechnicalAnalytics db scope rng =
        Repo.TechnicalAnalytics db scope2 rng) ∧
    (∀ t t2, Repo.TechnicalAnalytics db scope rng = .ok t →
      Repo.TechnicalAnalytics db scope2 rng = .ok t2 →
      t.Polygons = t2.Polygons) ∧
    ((scope.type = .kgu ∨ scope.type = .contractor) →
      db.trips = some trips → db.tickets = some tickets →
      ∀ l, Repo.CameraLoad db scope rng = .ok l →
        ∀ r ∈ l, r.CameraID ∈ scopedTripCameraIDs trips tickets scope rng) ∧
    (∀ (dr mr now : Int) (p : Principal) (children : List Nat),
      (p.Role = .contractor ∨ p.Role = .driver ∨ p.Role = .unknown) →
      Service.GetTechnicalAnalytics dr mr db now p children rng =
        .error .permissionDenied) := by
  refine ⟨?_, ?_, ?_, ?_⟩
  · intro h1 h2
    have hc : Repo.CameraLoad db scope rng = Repo.CameraLoad db scope2 rng := by
      unfold Repo.CameraLoad
      rcases h1 with h | h <;> rcases h2 with h' | h' <;> simp [h, h']
    refine ⟨hc, ?_⟩
    unfold Repo.TechnicalAnalytics
    rw [hc]
  · intro t t2 ht ht2
    rw [technicalAnalytics_polygons db scope rng t ht,
      technicalAnalytics_polygons db scope2 rng t2 ht2]
  · intro hk htr htk l hl r hr
    have hcond : (scope.type != ScopeType.city &&
        scope.type != ScopeType.technical) = true := by
      rcases hk with h | h <;> simp [h]
    by_cases g : Repo.tablesAvailable db
      ["cameras", "polygons", "trips", "lpr_events", "volume_events"]
    · have g' := g
      simp only [Repo.tablesAvailable, Repo.relationExists, DB.relation,
        List.all_cons, List.all_nil, Bool.and_eq_true,
        Option.isSome_map'] at g'
      obtain ⟨h1, h2, h3, h4, h5, -⟩ := g'
      obtain ⟨cs, hcs⟩ := Option.isSome_iff_exists.mp h1
      obtain ⟨ps, hps⟩ := Option.isSome_iff_exists.mp h2
      obtain ⟨ls, hls⟩ := Option.isSome_iff_exists.mp h4
      obtain ⟨vs, hvs⟩ := Option.isSome_iff_exists.mp h5
      simp only [Repo.CameraLoad, g, hcond, hcs, hps, htr, htk, hls, hvs,
        Repo.readRel, not_true, Bool.not_true, pure, Except.pure, bind,
        Except.bind, if_neg, reduceIte, Except.ok.injEq] at hl
      subst hl
      obtain ⟨c, hc, rfl⟩ := List.mem_map.mp hr
      obtain ⟨-, hcontains⟩ := List.mem_filter.mp hc
      simpa using hcontains
    · simp [Repo.CameraLoad, g, pure, Except.pure] at hl
      subst hl
      simp at hr
  · intro dr mr now p children hrole
    rcases p with ⟨u, o, role, d⟩
    rcases hrole with h | h | h <;> subst h <;>
      simp [Service.GetTechnicalAnalytics, Principal.IsToo,
        Principal.IsAkimat, Principal.IsKgu, throw, throwThe,
        MonadExceptOf.throw, bind, Except.bind, ResolveScope]


/-- C6 counterexample: the cleaning-area aggregator requires the
`cleaning_areas` relation (it joins it) but does not availability-check
it, so with the rollup present and `cleaning_areas` absent it returns a
query error instead of its zero-value result. -/
theorem missing_joined_relation_error_cex :
    Repo.relationExists
      ({ mvCleaningAreaDaily := some [] } : DB) "cleaning_areas" = false ∧
    Repo.CleaningAreaAnalytics ({ mvCleaningAreaDaily := some [] } : DB)
      { type := .city } {} = .error .queryFailed :=
  ⟨rfl, rfl⟩

/-- C6 amended: every aggregator returns its zero-value result (empty
list / zero stats) and no error whenever any relation in its
availability-check list is absent; consequently the composite Dashboard
still succeeds, with zeroed/empty sub-sections, for every non-driver
principal with a resolvable scope even when every relation is absent.
(A joined relation missing from the check list, as in the
counterexample, still yields a query error.) -/
theorem missing_relation_degrades (db : DB) (scope : Scope)
    (rng : DateRange) (filter : AnalyticsFilter) (now : Int) (limit : Nat)
    (col : String) :
    (Repo.tablesAvailable db ["trips", "tickets"] = false →
      Repo.DashboardStats db scope rng = .ok {} ∧
      Repo.CleaningAreaActivity db scope rng = .ok [] ∧
      Repo.TripDurationStats db scope filter = .ok {} ∧
      Repo.TripVolumeStats db scope filter = .ok {} ∧
      Repo.MapStates db scope rng = .ok ([], [], []) ∧
      Repo.ViolationLeaders db scope filter col limit = .ok []) ∧
    (Repo.tablesAvailable db ["trips", "tickets", "organizations"] = false →
      Repo.ContractorActivitySplit db scope rng = .ok ([], []) ∧
      Repo.TopContractors db scope filter limit = .ok [] ∧
      Repo.ContractorPerformance db scope filter limit = .ok []) ∧
    (Repo.tablesAvailable db ["trips", "drivers", "tickets"] = false →
      Repo.TopDrivers db scope filter limit = .ok []) ∧
    (Repo.tablesAvailable db ["trips", "tickets", "drivers"] = false →
      Repo.DriverPerformance db scope filter limit = .ok []) ∧
    (Repo.tablesAvailable db
        ["trips", "drivers", "tickets", "organizations"] = false →
      Repo.DriverKPIs db scope filter = .ok []) ∧
    (Repo.tablesAvailable db ["trips", "tickets", "vehicles"] = false →
      Repo.VehiclePerformance db scope filter limit = .ok []) ∧
    (Repo.tablesAvailable db
        ["trips", "vehicles", "tickets", "organizations"] = false →
      Repo.VehicleKPIs db scope filter = .ok []) ∧
    (Repo.relationExists db "mv_trip_daily" = false →
      Repo.TripSeries db scope filter = .ok [] ∧
      Repo.TripVolumeSeries db scope filter = .ok []) ∧
    (Repo.relationExists db "mv_violation_daily" = false →
      Repo.ViolationSeries db scope filter = .ok [] ∧
      Repo.ViolationBreakdown db scope filter = .ok []) ∧
    (Repo.relationExists db "mv_cleaning_area_daily" = false →
      Repo.CleaningAreaAnalytics db scope filter = .ok []) ∧
    (Repo.tablesAvailable db
        ["cameras", "polygons", "trips", "lpr_events", "volume_events"] =
          false →
      Repo.CameraLoad db scope rng = .ok []) ∧
    (Repo.tablesAvailable db
        ["contracts", "organizations", "contract_usage"] = false →
      Repo.ContractProgress db scope now = .ok []) ∧
    (Repo.tablesAvailable db ["cameras"] = false →
      Repo.TechnicalAnalytics db scope rng = .ok {}) ∧
    (∀ (dr mr now2 : Int) (p : Principal) (children : List Nat)
        (rng2 : DateRange) (scope2 : Scope),
      p.IsDriver = false → ResolveScope p children = .ok scope2 →
      Service.GetDashboard dr mr ({} : DB) now2 p children rng2 =
        .ok { GeneratedFor := Service.normalizeRange dr mr now2 rng2 }) := by
  refine ⟨?_, ?_, ?_, ?_, ?_, ?_, ?_, ?_, ?_, ?_, ?_, ?_, ?_, ?_⟩
  · intro h
    exact ⟨by simp [Repo.DashboardStats, h, pure, Except.pure],
      by simp [Repo.CleaningAreaActivity, h, pure, Except.pure],
      by simp [Repo.TripDurationStats, h, pure, Except.pure],
      by simp [Repo.TripVolumeStats, h, pure, Except.pure],
      by simp [Repo.MapStates, h, pure, Except.pure],
      by simp [Repo.ViolationLeaders, h, pure, Except.pure]⟩
  · intro h
    exact ⟨by simp [Repo.ContractorActivitySplit, h, pure, Except.pure],
      by simp [Repo.TopContractors, h, pure, Except.pure],
      by simp [Repo.ContractorPerformance, h, pure, Except.pure]⟩
  · intro h
    simp [Repo.TopDrivers, h, pure, Except.pure]
  · intro h
    simp [Repo.DriverPerformance, h, pure, Except.pure]
  · intro h
    simp [Repo.DriverKPIs, h, pure, Except.pure]
  · intro h
    simp [Repo.VehiclePerformance, h, pure, Except.pure]
  · intro h
    simp [Repo.VehicleKPIs, h, pure, Except.pure]
  · intro h
    exact ⟨by simp [Repo.TripSeries, h, pure, Except.pure],
      by simp [Repo.TripVolumeSeries, h, pure, Except.pure]⟩
  · intro h
    exact ⟨by simp [Repo.ViolationSeries, h, pure, Except.pure],
      by simp [Repo.ViolationBreakdown, h, pure, Except.pure]⟩
  · intro h
    simp [Repo.CleaningAreaAnalytics, h, pure, Except.pure]
  · intro h
    simp [Repo.CameraLoad, h, pure, Except.pure]
  · intro h
    simp [Repo.ContractProgress, h, pure, Except.pure]
  · intro h
    simp [Repo.TechnicalAnalytics, h, pure, Except.pure]
  · intro dr mr now2 p children rng2 scope2 hdrv hres
    have hds : ∀ (s : Scope) (r : DateRange),
        Repo.DashboardStats ({} : DB) s r = .ok {} := fun _ _ => rfl
    have hca : ∀ (s : Scope) (r : DateRange),
        Repo.CleaningAreaActivity ({} : DB) s r = .ok [] := fun _ _ => rfl
    have hsp : ∀ (s : Scope) (r : DateRange),
        Repo.ContractorActivitySplit ({} : DB) s r = .ok ([], []) :=
      fun _ _ => rfl
    have hcp : ∀ (s : Scope) (n : Int),
        Repo.ContractProgress ({} : DB) s n = .ok [] := fun _ _ => rfl
    have hms : ∀ (s : Scope) (r : DateRange),
        Repo.MapStates ({} : DB) s r = .ok ([], [], []) := fun _ _ => rfl
    have hcl : ∀ (s : Scope) (r : DateRange),
        Repo.CameraLoad ({} : DB) s r = .ok [] := fun _ _ => rfl
    rcases p with ⟨u, o, role, d⟩
    cases role <;> simp_all [ResolveScope, Principal.IsDriver] <;>
      simp [Service.GetDashboard, Principal.IsDriver, ResolveScope,
        Service.liftRepo, bind, Except.bind, pure, Except.pure, hds, hca,
        hsp, hcp, hms, hcl]


/-- A `pure` result is not a PermissionDenied outcome. -/
theorem noPD_pure (a : α) :
    (pure a : Except Service.SvcError α) ≠ .error .permissionDenied := by
  simp [pure, Except.pure]

/-- A repository failure surfaces as an internal error, never as
PermissionDenied. -/
theorem noPD_liftRepo (x : Except Repo.RepoError α) :
    Service.liftRepo x ≠ .error .permissionDenied := by
  cases x <;> simp [Service.liftRepo]

/-- Sequencing preserves "never PermissionDenied". -/
theorem noPD_bind (x : Except Service.SvcError α)
    (f : α → Except Service.SvcError β)
    (hx : x ≠ .error .permissionDenied)
    (hf : ∀ a, f a ≠ .error .permissionDenied) :
    (x >>= f) ≠ .error .permissionDenied := by
  cases x <;> simp_all [bind, Except.bind]

/-- The trip report never returns PermissionDenied for City-Authority,
Regional-Authority or Contractor principals. -/
theorem getTripAnalytics_noPD (dr mr : Int) (db : DB) (now : Int)
    (children : List Nat) (filter : AnalyticsFilter) (u : Nat)
    (o d : Option Nat) (role : Role)
    (h : role = .akimat ∨ role = .kgu ∨ role = .contractor) :
    Service.GetTripAnalytics dr mr db now ⟨u, o, role, d⟩ children filter ≠
      .error .permissionDenied := by
  rcases h with rfl | rfl | rfl <;>
  · simp only [Service.GetTripAnalytics, Principal.IsDriver, ResolveScope,
      decide_False, Bool.false_eq_true, if_false, reduceIte]
    refine noPD_bind _ _ (noPD_pure _) fun y => ?_
    rw [if_neg (by decide)]
    repeat' first
      | exact noPD_pure _
      | exact noPD_liftRepo _
      | refine noPD_bind _ _ (noPD_pure _) fun yy => ?_
      | refine noPD_bind _ _ (noPD_liftRepo _) fun aa => ?_


/-- The violation report never returns PermissionDenied for
City-Authority, Regional-Authority or Contractor principals. -/
theorem getViolationAnalytics_noPD (dr mr : Int) (db : DB) (now : Int)
    (children : List Nat) (filter : AnalyticsFilter) (u : Nat)
    (o d : Option Nat) (role : Role)
    (h : role = .akimat ∨ role = .kgu ∨ role = .contractor) :
    Service.GetViolationAnalytics dr mr db now ⟨u, o, role, d⟩ children
      filter ≠ .error .permissionDenied := by
  rcases h with rfl | rfl | rfl <;>
  · simp only [Service.GetViolationAnalytics, Principal.IsDriver,
      ResolveScope, decide_False, Bool.false_eq_true, if_false, reduceIte]
    refine noPD_bind _ _ (noPD_pure _) fun y => ?_
    rw [if_neg (by decide)]
    repeat' first
      | exact noPD_pure _
      | exact noPD_liftRepo _
      | refine noPD_bind _ _ (noPD_pure _) fun yy => ?_
      | refine noPD_bind _ _ (noPD_liftRepo _) fun aa => ?_

/-- The performance report never returns PermissionDenied for
City-Authority, Regional-Authority or Contractor principals. -/
theorem getPerformanceAnalytics_noPD (dr mr : Int) (db : DB) (now : Int)
    (children : List Nat) (filter : AnalyticsFilter) (u : Nat)
    (o d : Option Nat) (role : Role)
    (h : role = .akimat ∨ role = .kgu ∨ role = .contractor) :
    Service.GetPerformanceAnalytics dr mr db now ⟨u, o, role, d⟩ children
      filter ≠ .error .permissionDenied := by
  rcases h with rfl | rfl | rfl <;>
  · simp only [Service.GetPerformanceAnalytics, Principal.IsDriver,
      ResolveScope, decide_False, Bool.false_eq_true, if_false, reduceIte]
    refine noPD_bind _ _ (noPD_pure _) fun y => ?_
    rw [if_neg (by decide)]
    repeat' first
      | exact noPD_pure _
      | exact noPD_liftRepo _
      | refine noPD_bind _ _ (noPD_pure _) fun yy => ?_
      | refine noPD_bind _ _ (noPD_liftRepo _) fun aa => ?_

/-- The contract report never returns PermissionDenied for
City-Authority, Regional-Authority or Contractor principals. -/
theorem getContractAnalytics_noPD (db : DB) (now : Int)
    (children : List Nat) (u : Nat) (o d : Option Nat) (role : Role)
    (h : role = .akimat ∨ role = .kgu ∨ role = .contractor) :
    Service.GetContractAnalytics db now ⟨u, o, role, d⟩ children ≠
      .error .permissionDenied := by
  rcases h with rfl | rfl | rfl <;>
  · simp only [Service.GetContractAnalytics, Principal.IsDriver,
      ResolveScope, decide_False, Bool.false_eq_true, if_false, reduceIte]
    refine noPD_bind _ _ (noPD_pure _) fun y => ?_
    rw [if_neg (by decide)]
    repeat' first
      | exact noPD_pure _
      | exact noPD_liftRepo _
      | refine noPD_bind _ _ (noPD_pure _) fun yy => ?_
      | refine noPD_bind _ _ (noPD_liftRepo _) fun aa => ?_

/-- The dashboard never returns PermissionDenied for City-Authority,
Regional-Authority, Contractor or Technical-Operator principals. -/
theorem getDashboard_noPD (dr mr : Int) (db : DB) (now : Int)
    (children : List Nat) (rng : DateRange) (u : Nat) (o d : Option Nat)
    (role : Role)
    (h : role = .akimat ∨ role = .kgu ∨ role = .contractor ∨ role = .too) :
    Service.GetDashboard dr mr db now ⟨u, o, role, d⟩ children rng ≠
      .error .permissionDenied := by
  rcases h with rfl | rfl | rfl | rfl <;>
  · simp only [Service.GetDashboard, Principal.IsDriver, ResolveScope,
      decide_False, Bool.false_eq_true, if_false, reduceIte]
    refine noPD_bind _ _ (noPD_pure _) fun y => ?_
    repeat' first
      | exact noPD_pure _
      | exact noPD_liftRepo _
      | refine noPD_bind _ _ (noPD_pure _) fun yy => ?_
      | refine noPD_bind _ _ (noPD_liftRepo _) fun aa => ?_


/-- C4 witness: City scope and Technical scope receive identical
camera loads on the same store and range. -/
theorem technical_report_scope_witness :
    Repo.CameraLoad ({} : DB) { type := .city } {} =
      Repo.CameraLoad ({} : DB)
        { type := .technical, TechnicalOnly := true } {} :=
  ((technical_report_scope {} {} { type := .city }
      { type := .technical, TechnicalOnly := true } [] []).1
    (Or.inl rfl) (Or.inr rfl)).1

/-- C6 witness: with no relations at all, the dashboard-stats
aggregator yields the zero struct and no error. -/
theorem missing_relation_degrades_witness :
    Repo.DashboardStats ({} : DB) { type := .city } {} = .ok {} :=
  ((missing_relation_degrades {} { type := .city } {} {} 0 0 "").1 rfl).1

/-- C3 counterexample: a Technical-Operator is not a Driver, yet the
trip report rejects the TOO principal with PermissionDenied — so Driver
is not the only denied role for the trip report. -/
theorem too_trip_report_denied_cex :
    Principal.IsDriver ({ Role := .too } : Principal) = false ∧
    Service.GetTripAnalytics 7 90 {} 0 { Role := .too } [] {} =
      .error .permissionDenied :=
  ⟨rfl, rfl⟩

/-- C3 amended: the dashboard denies exactly Driver principals and
principals whose role has no scope mapping; the trip, violation,
performance and contract reports additionally deny Technical-Operator
(Technical scope) principals — and no other principal is ever rejected
with PermissionDenied on these five reports. -/
theorem report_role_eligibility (dr mr : Int) (db : DB) (now : Int)
    (p : Principal) (children : List Nat) (rng : DateRange)
    (filter : AnalyticsFilter) :
    (Service.GetDashboard dr mr db now p children rng =
        .error .permissionDenied ↔ p.Role = .driver ∨ p.Role = .unknown) ∧
    (Service.GetTripAnalytics dr mr db now p children filter =
        .error .permissionDenied ↔
      p.Role = .driver ∨ p.Role = .too ∨ p.Role = .unknown) ∧
    (Service.GetViolationAnalytics dr mr db now p children filter =
        .error .permissionDenied ↔
      p.Role = .driver ∨ p.Role = .too ∨ p.Role = .unknown) ∧
    (Service.GetPerformanceAnalytics dr mr db now p children filter =
        .error .permissionDenied ↔
      p.Role = .driver ∨ p.Role = .too ∨ p.Role = .unknown) ∧
    (Service.GetContractAnalytics db now p children =
        .error .permissionDenied ↔
      p.Role = .driver ∨ p.Role = .too ∨ p.Role = .unknown) := by
  rcases p with ⟨u, o, role, d⟩
  cases role
  case akimat =>
    exact ⟨iff_of_false
        (getDashboard_noPD _ _ _ _ _ _ _ _ _ _ (Or.inl rfl)) (by simp),
      iff_of_false
        (getTripAnalytics_noPD _ _ _ _ _ _ _ _ _ _ (Or.inl rfl)) (by simp),
      iff_of_false
        (getViolationAnalytics_noPD _ _ _ _ _ _ _ _ _ _ (Or.inl rfl))
        (by simp),
      iff_of_false
        (getPerformanceAnalytics_noPD _ _ _ _ _ _ _ _ _ _ (Or.inl rfl))
        (by simp),
      iff_of_false
        (getContractAnalytics_noPD _ _ _ _ _ _ _ (Or.inl rfl)) (by simp)⟩
  case kgu =>
    exact ⟨iff_of_false
        (getDashboard_noPD _ _ _ _ _ _ _ _ _ _ (Or.inr (Or.inl rfl)))
        (by simp),
      iff_of_false
        (getTripAnalytics_noPD _ _ _ _ _ _ _ _ _ _ (Or.inr (Or.inl rfl)))
        (by simp),
      iff_of_false
        (getViolationAnalytics_noPD _ _ _ _ _ _ _ _ _ _
          (Or.inr (Or.inl rfl))) (by simp),
      iff_of_false
        (getPerformanceAnalytics_noPD _ _ _ _ _ _ _ _ _ _
          (Or.inr (Or.inl rfl))) (by simp),
      iff_of_false
        (getContractAnalytics_noPD _ _ _ _ _ _ _ (Or.inr (Or.inl rfl)))
        (by simp)⟩
  case contractor =>
    exact ⟨iff_of_false
        (getDashboard_noPD _ _ _ _ _ _ _ _ _ _
          (Or.inr (Or.inr (Or.inl rfl)))) (by simp),
      iff_of_false
        (getTripAnalytics_noPD _ _ _ _ _ _ _ _ _ _
          (Or.inr (Or.inr rfl))) (by simp),
      iff_of_false
        (getViolationAnalytics_noPD _ _ _ _ _ _ _ _ _ _
          (Or.inr (Or.inr rfl))) (by simp),
      iff_of_false
        (getPerformanceAnalytics_noPD _ _ _ _ _ _ _ _ _ _
          (Or.inr (Or.inr rfl))) (by simp),
      iff_of_false
        (getContractAnalytics_noPD _ _ _ _ _ _ _ (Or.inr (Or.inr rfl)))
        (by simp)⟩
  case too =>
    refine ⟨iff_of_false
        (getDashboard_noPD _ _ _ _ _ _ _ _ _ _
          (Or.inr (Or.inr (Or.inr rfl)))) (by simp), ?_, ?_, ?_, ?_⟩ <;>
      refine iff_of_true ?_ (by simp) <;>
      simp [Service.GetTripAnalytics, Service.GetViolationAnalytics,
        Service.GetPerformanceAnalytics, Service.GetContractAnalytics,
        Principal.IsDriver, ResolveScope, throw, throwThe,
        MonadExceptOf.throw, bind, Except.bind, pure, Except.pure]
  case driver =>
    refine ⟨?_, ?_, ?_, ?_, ?_⟩ <;>
      refine iff_of_true ?_ (by simp) <;>
      simp [Service.GetDashboard, Service.GetTripAnalytics,
        Service.GetViolationAnalytics, Service.GetPerformanceAnalytics,
        Service.GetContractAnalytics, Principal.IsDriver, ResolveScope,
        throw, throwThe, MonadExceptOf.throw, bind, Except.bind, pure,
        Except.pure]
  case unknown =>
    refine ⟨?_, ?_, ?_, ?_, ?_⟩ <;>
      refine iff_of_true ?_ (by simp) <;>
      simp [Service.GetDashboard, Service.GetTripAnalytics,
        Service.GetViolationAnalytics, Service.GetPerformanceAnalytics,
        Service.GetContractAnalytics, Principal.IsDriver, ResolveScope,
        throw, throwThe, MonadExceptOf.throw, bind, Except.bind, pure,
        Except.pure]

end SnowOps
